import Mathlib

/-!
Formal model of the Cavvy IR code generator (the repository's
`src/codegen` modules) as a shallow embedding in Lean 4, together with
theorems settling the specification claims about it.

The generator walks an AST and appends textual LLVM-style IR lines to an
append-only buffer while threading mutable generation state (temporary and
label counters, scope manager, static-field table, legacy variable-type
map, type registry, current class, current return type, loop-context
stack).  We embed the buffer as a list of structured `Line` values, each
carrying exactly the fields of the `format!` string the Rust source emits
for it; `Line.render` reproduces the emitted text, so textual checks the
source performs (for example terminator detection by inspecting the last
emitted line) are modelled on the rendered text.

The repository snapshot contains the expression/statement generator
modules but not `codegen/context.rs`; the small `IRGenerator` helpers it
provides (`new_temp`, `new_label`, `emit_line`, `parse_typed_value`,
`get_type_align`, `type_to_llvm`, `get_or_create_string_constant`, the
scope manager and loop-context accessors) are modelled from the spec and
are marked as such in their doc comments.
-/

set_option maxRecDepth 10000
set_option maxHeartbeats 1000000

namespace Cavvy

/-- Result type of generator functions (`cayResult` in the source): either a
value or a codegen error message. -/
abbrev cayResult (α : Type) := Except String α

/-- The semantic-analyzer type enum (`crate::types::Type`). -/
inductive Ty where
  | int32 | int64 | float32 | float64 | bool | char | str | void
  | object (name : String)
  | array (elem : Ty)
  deriving Repr, DecidableEq

/-- Static field metadata (`FieldInfo` entries of `static_field_map`):
LLVM type and global storage name. -/
structure FieldInfo where
  llvm_type : String
  name : String
  deriving Repr, DecidableEq

/-- One declared parameter of a registered method (`crate::types::ParameterInfo`). -/
structure ParameterInfo where
  param_type : Ty
  is_varargs : Bool
  deriving Repr, DecidableEq

/-- One registered overload (`MethodInfo`): ordered parameters and return type. -/
structure MethodInfo where
  params : List ParameterInfo
  return_type : Ty
  deriving Repr, DecidableEq

/-- Registered class metadata: optional parent and method table keyed by
name, each name mapping to one or more overloads. -/
structure ClassInfo where
  parent : Option String
  methods : List (String × List MethodInfo)
  deriving Repr, DecidableEq

/-- The type registry produced by the semantic analyzer, read-only to the
generator. -/
structure Registry where
  classes : List (String × ClassInfo)
  deriving Repr, DecidableEq

/-- Boolean prefix test on strings by character list (`str::starts_with`);
written over `List Char` so that it evaluates inside the kernel. -/
def chStartsWith (s p : String) : Bool := p.data.isPrefixOf s.data

/-- Boolean suffix test on strings by character list (`str::ends_with`). -/
def chEndsWith (s p : String) : Bool := p.data.reverse.isPrefixOf s.data.reverse

/-- Split a character list at every occurrence of a separator character. -/
def splitOnChar (c : Char) : List Char → List (List Char)
  | [] => [[]]
  | x :: xs =>
    let r := splitOnChar c xs
    if x = c then [] :: r
    else
      match r with
      | [] => [[x]]
      | h :: t => (x :: h) :: t

/-- The lines of a string (`str::lines`), by character list. -/
def chLines (s : String) : List String :=
  (splitOnChar (Char.ofNat 10) s.data).map (fun l => String.mk l)

/-- Whitespace test used by `chTrim`. -/
def isSpaceCh (c : Char) : Bool :=
  c = ' ' || c = Char.ofNat 9 || c = Char.ofNat 10 || c = Char.ofNat 13

/-- Trim leading and trailing whitespace (`str::trim`), by character
list. -/
def chTrim (s : String) : String :=
  String.mk (((s.data.dropWhile isSpaceCh).reverse.dropWhile isSpaceCh).reverse)

/-- Parse a decimal natural number (`str::parse::<u32>`), by character
list. -/
def chToNat? (s : String) : Option Nat :=
  if s.data ≠ [] ∧ s.data.all (fun c => c.isDigit) then
    some (s.data.foldl (fun n c => n * 10 + (c.toNat - 48)) 0)
  else none

/-- Association-list lookup used to model the source's `HashMap::get`. -/
def lookupA {α : Type} : List (String × α) → String → Option α
  | [], _ => none
  | (k, v) :: rest, key => if k = key then some v else lookupA rest key

/-- `Registry.get_class`: look a class up by name. -/
def Registry.get_class (r : Registry) (name : String) : Option ClassInfo :=
  lookupA r.classes name

/-- `Registry.class_exists`: whether a class of that name is registered. -/
def Registry.class_exists (r : Registry) (name : String) : Bool :=
  (r.get_class name).isSome

/-- An active loop context: `continue` target and `break` target labels. -/
structure LoopCtx where
  cond_label : String
  end_label : String
  deriving Repr, DecidableEq

/-- One emitted IR buffer entry.  Each constructor corresponds to one
`emit_line(&format!(...))` shape in the source; `Line.render` below
reproduces the exact formatted text. -/
inductive Line where
  /-- a block label line; `nl` marks the `"\n{}:"` variant the
  multi-dimensional array generator emits -/
  | label (nl : Bool) (name : String)
  /-- value conversions: `dst = op fromTy val to toTy` with
  `op` one of sext/trunc/fpext/fptrunc/sitofp/fptosi -/
  | conv (dst op fromTy val toTy : String)
  /-- two-operand opcodes: `dst = op ty a, b` -/
  | binop (dst op ty a b : String)
  /-- integer/pointer comparisons: `dst = icmp cond ty a, b` -/
  | icmp (dst cond ty a b : String)
  /-- float comparisons: `dst = fcmp cond ty a, b` -/
  | fcmp (dst cond ty a b : String)
  /-- `dst = call i8* @calloc(i64 1, i64 bytes)` -/
  | calloc (dst bytes : String)
  /-- `dst = bitcast fromTy val to toTy` -/
  | bitcast (dst fromTy val toTy : String)
  /-- `store ty val, ty* ptr` with optional `, align a` -/
  | store (ty val ptr : String) (al : Option Nat)
  /-- `dst = getelementptr ty, ty* base, i64 idx` -/
  | gep (dst ty base idx : String)
  /-- string-constant decay `dst = getelementptr [len x i8], [len x i8]* g, i64 0, i64 0` -/
  | gepStr (dst : String) (len : Nat) (g : String)
  /-- `dst = load ty, ty* ptr` with optional `, align a` -/
  | load (dst ty ptr : String) (al : Option Nat)
  /-- `dst = alloca ty` -/
  | alloca (dst ty : String)
  /-- unconditional branch `br label %l` -/
  | brLabel (l : String)
  /-- conditional branch `br i1 c, label %t, label %f` -/
  | condbr (c t f : String)
  /-- `switch i64 v, label %d [` -/
  | switchHead (v d : String)
  /-- one switch case arm line `i64 n, label %l` -/
  | switchCase (n : Int) (l : String)
  /-- the closing `]` of a switch instruction -/
  | switchClose
  /-- `call i32 (i8*, ...) @printf(i8* arg)` -/
  | callPrintf (arg : String)
  /-- `call void @exit(i32 1)` -/
  | callExit
  /-- the `unreachable` terminator -/
  | unreachable
  /-- `ret rest` (covers `ret void`, `ret ty val`) -/
  | ret (rest : String)
  /-- `dst = call i8* @__cay_string_concat(i8* a, i8* b)` -/
  | callConcat (dst a b : String)
  /-- `dst = call i8* @__cay_char_to_string(i8 a)` -/
  | callCharToString (dst a : String)
  /-- user-method call `dst = call retTy @fn(args)` or `call void @fn(args)` -/
  | callFn (dst : Option String) (retTy fn : String) (args : List String)
  deriving Repr, DecidableEq

namespace Line

/-- Render one buffer entry to the exact text the source's `format!`
strings produce for it. -/
def render : Line → String
  | label nl name => (if nl then "\n" else "") ++ name ++ ":"
  | conv dst op fromTy val toTy =>
      "  " ++ dst ++ " = " ++ op ++ " " ++ fromTy ++ " " ++ val ++ " to " ++ toTy
  | binop dst op ty a b => "  " ++ dst ++ " = " ++ op ++ " " ++ ty ++ " " ++ a ++ ", " ++ b
  | icmp dst cond ty a b =>
      "  " ++ dst ++ " = icmp " ++ cond ++ " " ++ ty ++ " " ++ a ++ ", " ++ b
  | fcmp dst cond ty a b =>
      "  " ++ dst ++ " = fcmp " ++ cond ++ " " ++ ty ++ " " ++ a ++ ", " ++ b
  | calloc dst bytes => "  " ++ dst ++ " = call i8* @calloc(i64 1, i64 " ++ bytes ++ ")"
  | bitcast dst fromTy val toTy =>
      "  " ++ dst ++ " = bitcast " ++ fromTy ++ " " ++ val ++ " to " ++ toTy
  | store ty val ptr al =>
      "  store " ++ ty ++ " " ++ val ++ ", " ++ ty ++ "* " ++ ptr ++
        (match al with | some a => ", align " ++ toString a | none => "")
  | gep dst ty base idx =>
      "  " ++ dst ++ " = getelementptr " ++ ty ++ ", " ++ ty ++ "* " ++ base ++ ", i64 " ++ idx
  | gepStr dst len g =>
      "  " ++ dst ++ " = getelementptr [" ++ toString len ++ " x i8], [" ++ toString len ++
        " x i8]* " ++ g ++ ", i64 0, i64 0"
  | load dst ty ptr al =>
      "  " ++ dst ++ " = load " ++ ty ++ ", " ++ ty ++ "* " ++ ptr ++
        (match al with | some a => ", align " ++ toString a | none => "")
  | alloca dst ty => "  " ++ dst ++ " = alloca " ++ ty
  | brLabel l => "  br label %" ++ l
  | condbr c t f => "  br i1 " ++ c ++ ", label %" ++ t ++ ", label %" ++ f
  | switchHead v d => "  switch i64 " ++ v ++ ", label %" ++ d ++ " ["
  | switchCase n l => "    i64 " ++ toString n ++ ", label %" ++ l
  | switchClose => "  ]"
  | callPrintf arg => "  call i32 (i8*, ...) @printf(i8* " ++ arg ++ ")"
  | callExit => "  call void @exit(i32 1)"
  | unreachable => "  unreachable"
  | ret rest => "  ret " ++ rest
  | callConcat dst a b =>
      "  " ++ dst ++ " = call i8* @__cay_string_concat(i8* " ++ a ++ ", i8* " ++ b ++ ")"
  | callCharToString dst a =>
      "  " ++ dst ++ " = call i8* @__cay_char_to_string(i8 " ++ a ++ ")"
  | callFn dst retTy fn args =>
      (match dst with
       | some d => "  " ++ d ++ " = call " ++ retTy ++ " @" ++ fn ++ "("
       | none => "  call " ++ retTy ++ " @" ++ fn ++ "(") ++
        String.intercalate ", " args ++ ")"

end Line

/-- The generator state (`IRGenerator`): temp/label counters, the
append-only instruction buffer, scope manager stack, static-field table,
legacy variable-type map, variable-class map, optional type registry,
current class, current function return type, string-constant pool and the
loop-context stack.  The scope manager stack holds, innermost scope
first, bindings `(name, type, llvmName)`. -/
structure St where
  tempCtr : Nat := 0
  labelCtr : Nat := 0
  buf : List Line := []
  scopeStack : List (List (String × String × String)) := []
  static_field_map : List (String × FieldInfo) := []
  var_types : List (String × String) := []
  var_class_map : List (String × String) := []
  type_registry : Option Registry := none
  current_class : String := ""
  current_return_type : String := "void"
  strPool : List String := []
  loopStack : List LoopCtx := []
  deriving Repr, DecidableEq

namespace St

/-- Modelled from the spec: `new_temp` draws the next value of the
monotonic temp-name counter and returns a fresh `%N` temporary name. -/
def new_temp (st : St) : String × St :=
  ("%" ++ toString (st.tempCtr + 1), { st with tempCtr := st.tempCtr + 1 })

/-- Modelled from the spec: `new_label` draws the next value of the
monotonic label counter and appends it to the requested prefix, yielding a
collision-free label name. -/
def new_label (st : St) (p : String) : String × St :=
  (p ++ toString st.labelCtr, { st with labelCtr := st.labelCtr + 1 })

/-- Modelled from the spec: `emit_line` appends one formatted line to the
append-only instruction buffer; here the structured `Line` is appended and
`Line.render` recovers the emitted text. -/
def emit (st : St) (l : Line) : St :=
  { st with buf := st.buf ++ [l] }

/-- Modelled from the spec: `parse_typed_value` splits a typed operand
string `"type value"` at its first space into the type tag and the value. -/
def parse_typed_value (_st : St) (s : String) : String × String :=
  let ty := s.data.takeWhile (fun c => c ≠ ' ')
  let rest := (s.data.dropWhile (fun c => c ≠ ' ')).drop 1
  (String.mk ty, String.mk rest)

/-- Modelled from the spec: natural alignment of an LLVM type
(`get_type_align`): byte-sized types 1, 32-bit types 4, 64-bit and
pointer types 8. -/
def get_type_align (_st : St) (t : String) : Nat :=
  if t = "i1" then 1
  else if t = "i8" then 1
  else if t = "i32" then 4
  else if t = "float" then 4
  else 8

/-- Modelled from the spec: `type_to_llvm` maps a registry type to its
LLVM type string (strings and objects are `i8*` pointers, arrays append
one `*` to the element type). -/
def type_to_llvm (st : St) : Ty → String
  | Ty.int32 => "i32"
  | Ty.int64 => "i64"
  | Ty.float32 => "float"
  | Ty.float64 => "double"
  | Ty.bool => "i1"
  | Ty.char => "i8"
  | Ty.str => "i8*"
  | Ty.void => "void"
  | Ty.object _ => "i8*"
  | Ty.array t => st.type_to_llvm t ++ "*"

/-- Modelled from the spec: the string-constant pool is deduplicated by
content; `get_or_create_string_constant` returns the global name `@.strN`
of the pooled copy, interning the string on first use. -/
def get_or_create_string_constant (st : St) (s : String) : String × St :=
  match st.strPool.indexOf? s with
  | some i => ("@.str" ++ toString i, st)
  | none => ("@.str" ++ toString st.strPool.length, { st with strPool := st.strPool ++ [s] })

/-- Modelled from the spec: `scope_manager.get_var_type` searches the
scope stack innermost-first for the name's declared LLVM type. -/
def scope_get_var_type (st : St) (name : String) : Option String :=
  match st.scopeStack.findSome? (fun sc => (sc.find? (fun b => b.1 = name))) with
  | some b => some b.2.1
  | none => none

/-- Modelled from the spec: `scope_manager.get_llvm_name` searches the
scope stack innermost-first for the name's collision-free storage name. -/
def scope_get_llvm_name (st : St) (name : String) : Option String :=
  match st.scopeStack.findSome? (fun sc => (sc.find? (fun b => b.1 = name))) with
  | some b => some b.2.2
  | none => none

/-- Modelled from the spec: `scope_manager.enter_scope` pushes a fresh
empty scope. -/
def enter_scope (st : St) : St := { st with scopeStack := [] :: st.scopeStack }

/-- Modelled from the spec: `scope_manager.exit_scope` pops the innermost
scope. -/
def exit_scope (st : St) : St := { st with scopeStack := st.scopeStack.tail }

/-- Modelled from the spec: `current_loop` peeks the innermost active loop
context. -/
def current_loop (st : St) : Option LoopCtx := st.loopStack.head?

end St

/-- Bit width of an integer LLVM type string, exactly as the source
computes it: strip leading `i` characters and parse, defaulting to 64
(`trim_start_matches('i').parse().unwrap_or(64)`). -/
def intBits (t : String) : Nat :=
  (chToNat? (String.mk (t.data.dropWhile (fun c => c = 'i')))).getD 64

/-- Sequencing helper for generator steps returning `cayResult` plus the
threaded state (the `?` operator of the Rust source). -/
def bindR {α β : Type} (r : cayResult α × St) (f : α → St → cayResult β × St) :
    cayResult β × St :=
  match r with
  | (.ok a, st) => f a st
  | (.error e, st) => (.error e, st)

/-- `promote_integer_operands` (src/codegen/expressions/utils.rs:20):
promote two integer operands to a common type.  Pointer operands are
returned unchanged; a `i8` operand forces the `i32` target; equal types
short-circuit; otherwise the type with more bits wins and every operand
whose type differs from the target gets a `sext` emitted. -/
def promote_integer_operands (st : St)
    (left_type left_val right_type right_val : String) :
    (String × String × String) × St :=
  let left_is_ptr := chEndsWith left_type "*"
  let right_is_ptr := chEndsWith right_type "*"
  if left_is_ptr || right_is_ptr then
    ((left_type, left_val, right_val), st)
  else if left_type = "i8" ∨ right_type = "i8" then
    promoteBoth st "i32" left_type left_val right_type right_val
  else if left_type = right_type then
    ((left_type, left_val, right_val), st)
  else
    let left_bits := intBits left_type
    let right_bits := intBits right_type
    let target := if left_bits ≥ right_bits then left_type else right_type
    promoteBoth st target left_type left_val right_type right_val
where
  /-- emit the `sext` for each operand whose type is not already the
  target (lines 42-58 of utils.rs) -/
  promoteBoth (st : St) (target left_type left_val right_type right_val : String) :
      (String × String × String) × St :=
    let (promoted_left, st) :=
      if left_type ≠ target then
        let (temp, st) := st.new_temp
        (temp, st.emit (.conv temp "sext" left_type left_val target))
      else (left_val, st)
    let (promoted_right, st) :=
      if right_type ≠ target then
        let (temp, st) := st.new_temp
        (temp, st.emit (.conv temp "sext" right_type right_val target))
      else (right_val, st)
    ((target, promoted_left, promoted_right), st)

/-- `promote_float_operands` (utils.rs:73): promote float/double operands
toward double, emitting `fpext` for any float operand when the other is
double. -/
def promote_float_operands (st : St)
    (left_type left_val right_type right_val : String) :
    (String × String × String) × St :=
  if left_type = right_type then
    ((left_type, left_val, right_val), st)
  else if left_type = "double" || right_type = "double" then
    let (promoted_left, st) :=
      if left_type = "float" then
        let (temp, st) := st.new_temp
        (temp, st.emit (.conv temp "fpext" "float" left_val "double"))
      else (left_val, st)
    let (promoted_right, st) :=
      if right_type = "float" then
        let (temp, st) := st.new_temp
        (temp, st.emit (.conv temp "fpext" "float" right_val "double"))
      else (right_val, st)
    (("double", promoted_left, promoted_right), st)
  else
    ((left_type, left_val, right_val), st)

/-- `promote_mixed_operands` (utils.rs:114): for an integer/float pair,
convert the integer operand to the float operand's width via `sitofp`;
`none` when the pair is not mixed. -/
def promote_mixed_operands (st : St)
    (left_type left_val right_type right_val : String) :
    Option (String × String × String) × St :=
  let left_is_int := chStartsWith left_type "i" && !(chEndsWith left_type "*")
  let right_is_int := chStartsWith right_type "i" && !(chEndsWith right_type "*")
  let left_is_float := left_type = "float" || left_type = "double"
  let right_is_float := right_type = "float" || right_type = "double"
  if left_is_int && right_is_float then
    let promoted_type := if right_type = "double" then "double" else "float"
    let (converted_left, st) := st.new_temp
    let st := st.emit (.conv converted_left "sitofp" left_type left_val promoted_type)
    (some (promoted_type, converted_left, right_val), st)
  else if left_is_float && right_is_int then
    let promoted_type := if left_type = "double" then "double" else "float"
    let (converted_right, st) := st.new_temp
    let st := st.emit (.conv converted_right "sitofp" right_type right_val promoted_type)
    (some (promoted_type, left_val, converted_right), st)
  else
    (none, st)

/-- `generate_division_by_zero_check` (utils.rs:189): emit the runtime
guard — compare the divisor to zero, branch to an error block that prints
a fixed message and exits with status 1, and open the continue block. -/
def generate_division_by_zero_check (st : St) (val_type val : String) :
    cayResult Unit × St :=
  let (error_label, st) := st.new_label "div.error"
  let (continue_label, st) := st.new_label "div.cont"
  let (is_zero, st) := st.new_temp
  let st := st.emit (.icmp is_zero "eq" val_type val "0")
  let st := st.emit (.condbr is_zero error_label continue_label)
  let st := st.emit (.label false error_label)
  let (error_msg, st) := st.get_or_create_string_constant "Error: Division by zero\n"
  let st := st.emit (.callPrintf error_msg)
  let st := st.emit .callExit
  let st := st.emit .unreachable
  let st := st.emit (.label false continue_label)
  (.ok (), st)

/-- `generate_add` (binary.rs:48): string concatenation for pointer
operands, integer addition with integer promotion, float addition with
float promotion, and mixed integer/float addition converting the integer
side; anything else is an error. -/
def generate_add (st : St) (left_type left_val right_type right_val temp : String) :
    cayResult String × St :=
  if left_type = "i8*" && right_type = "i8*" then
    (.ok ("i8* " ++ temp), st.emit (.callConcat temp left_val right_val))
  else if left_type = "i8*" && right_type = "i8" then
    let (char_as_string, st) := st.new_temp
    let st := st.emit (.callCharToString char_as_string right_val)
    (.ok ("i8* " ++ temp), st.emit (.callConcat temp left_val char_as_string))
  else if left_type = "i8" && right_type = "i8*" then
    let (char_as_string, st) := st.new_temp
    let st := st.emit (.callCharToString char_as_string left_val)
    (.ok ("i8* " ++ temp), st.emit (.callConcat temp char_as_string right_val))
  else if chStartsWith left_type "i" && chStartsWith right_type "i" then
    let ((promoted_type, promoted_left, promoted_right), st) :=
      promote_integer_operands st left_type left_val right_type right_val
    let st := st.emit (.binop temp "add" promoted_type promoted_left promoted_right)
    (.ok (promoted_type ++ " " ++ temp), st)
  else if (left_type = "float" || left_type = "double") &&
      (right_type = "float" || right_type = "double") then
    let ((promoted_type, promoted_left, promoted_right), st) :=
      promote_float_operands st left_type left_val right_type right_val
    let st := st.emit (.binop temp "fadd" promoted_type promoted_left promoted_right)
    (.ok (promoted_type ++ " " ++ temp), st)
  else if chStartsWith left_type "i" && (right_type = "float" || right_type = "double") then
    let promoted_type := if right_type = "double" then "double" else "float"
    let (converted_left, st) := st.new_temp
    let st := st.emit (.conv converted_left "sitofp" left_type left_val promoted_type)
    let st := st.emit (.binop temp "fadd" promoted_type converted_left right_val)
    (.ok (promoted_type ++ " " ++ temp), st)
  else if (left_type = "float" || left_type = "double") && chStartsWith right_type "i" then
    let promoted_type := if left_type = "double" then "double" else "float"
    let (converted_right, st) := st.new_temp
    let st := st.emit (.conv converted_right "sitofp" right_type right_val promoted_type)
    let st := st.emit (.binop temp "fadd" promoted_type left_val converted_right)
    (.ok (promoted_type ++ " " ++ temp), st)
  else
    (.error ("Unsupported addition types: " ++ left_type ++ " and " ++ right_type), st)

/-- `generate_div` (binary.rs:161): integer division emits the runtime
division-by-zero guard on the promoted divisor and then `sdiv`; float and
mixed divisions emit `fdiv` without a guard; other types error. -/
def generate_div (st : St) (left_type left_val right_type right_val temp : String) :
    cayResult String × St :=
  if chStartsWith left_type "i" && chStartsWith right_type "i" then
    let ((promoted_type, promoted_left, promoted_right), st) :=
      promote_integer_operands st left_type left_val right_type right_val
    bindR (generate_division_by_zero_check st promoted_type promoted_right) fun _ st =>
      let st := st.emit (.binop temp "sdiv" promoted_type promoted_left promoted_right)
      (.ok (promoted_type ++ " " ++ temp), st)
  else if (left_type = "float" || left_type = "double") &&
      (right_type = "float" || right_type = "double") then
    let ((promoted_type, promoted_left, promoted_right), st) :=
      promote_float_operands st left_type left_val right_type right_val
    let st := st.emit (.binop temp "fdiv" promoted_type promoted_left promoted_right)
    (.ok (promoted_type ++ " " ++ temp), st)
  else
    match promote_mixed_operands st left_type left_val right_type right_val with
    | (some (promoted_type, promoted_left, promoted_right), st) =>
      let st := st.emit (.binop temp "fdiv" promoted_type promoted_left promoted_right)
      (.ok (promoted_type ++ " " ++ temp), st)
    | (none, st) =>
      (.error ("Unsupported division types: " ++ left_type ++ " and " ++ right_type), st)

/-- `generate_mod` (binary.rs:187): integer modulo emits the runtime
division-by-zero guard on the promoted divisor and then `srem`; any
non-integer operand is an error. -/
def generate_mod (st : St) (left_type left_val right_type right_val temp : String) :
    cayResult String × St :=
  if chStartsWith left_type "i" && chStartsWith right_type "i" then
    let ((promoted_type, promoted_left, promoted_right), st) :=
      promote_integer_operands st left_type left_val right_type right_val
    bindR (generate_division_by_zero_check st promoted_type promoted_right) fun _ st =>
      let st := st.emit (.binop temp "srem" promoted_type promoted_left promoted_right)
      (.ok (promoted_type ++ " " ++ temp), st)
  else
    (.error ("Unsupported modulo types: " ++ left_type ++ " and " ++ right_type), st)

/-- `generate_lt` (binary.rs:247): less-than comparison — signed integer
compare after integer promotion, ordered float compare after float or
mixed promotion; the result operand is always `i1`-typed. -/
def generate_lt (st : St) (left_type left_val right_type right_val temp : String) :
    cayResult String × St :=
  if chStartsWith left_type "i" && chStartsWith right_type "i" then
    let ((promoted_type, promoted_left, promoted_right), st) :=
      promote_integer_operands st left_type left_val right_type right_val
    let st := st.emit (.icmp temp "slt" promoted_type promoted_left promoted_right)
    (.ok ("i1 " ++ temp), st)
  else if (left_type = "float" || left_type = "double") &&
      (right_type = "float" || right_type = "double") then
    let ((promoted_type, promoted_left, promoted_right), st) :=
      promote_float_operands st left_type left_val right_type right_val
    let st := st.emit (.fcmp temp "olt" promoted_type promoted_left promoted_right)
    (.ok ("i1 " ++ temp), st)
  else
    match promote_mixed_operands st left_type left_val right_type right_val with
    | (some (promoted_type, promoted_left, promoted_right), st) =>
      let st := st.emit (.fcmp temp "olt" promoted_type promoted_left promoted_right)
      (.ok ("i1 " ++ temp), st)
    | (none, st) =>
      (.error ("Unsupported less-than comparison types: " ++ left_type ++
        " and " ++ right_type), st)

/-- Literal values of the embedded AST fragment (`LiteralValue`); float
literals are omitted from the fragment, no claim depends on them. -/
inductive LiteralValue where
  | int32 (v : Int)
  | int64 (v : Int)
  | boolL (v : Bool)
  | charL (v : Nat)
  | strL (s : String)
  | nullL
  deriving Repr, DecidableEq

/-- Binary operators of the embedded AST fragment (`BinaryOp`). -/
inductive BinaryOp where
  | add | div | mod | lt
  deriving Repr, DecidableEq

/-- Expressions of the embedded AST fragment (`Expr`).  Calls are embedded
separately through `generate_user_call` because the source's builtin
print/read interception is outside the verified fragment. -/
inductive Expr where
  | literal (v : LiteralValue)
  | identifier (name : String)
  | binary (op : BinaryOp) (left right : Expr)
  | memberAccess (obj : Expr) (member : String)
  | arrayCreation (element_type : Ty) (sizes : List Expr)

/-- Statements of the embedded AST fragment (`Stmt`); loops are omitted
from the fragment, no claim depends on them. -/
inductive Stmt where
  | expr (e : Expr)
  | ret (e : Option Expr)
  | block (stmts : List Stmt)
  | ifS (cond : Expr) (then_branch : Stmt) (else_branch : Option Stmt)
  | switchS (scrut : Expr) (cases : List (Int × List Stmt)) (dflt : Option (List Stmt))
  | breakS
  | continueS

/-- `generate_literal` (literal.rs:17): literals map to typed immediates;
string literals intern the text into the constant pool and emit a
pointer-decay `getelementptr`. -/
def generate_literal (st : St) : LiteralValue → cayResult String × St
  | .int32 v => (.ok ("i32 " ++ toString v), st)
  | .int64 v => (.ok ("i64 " ++ toString v), st)
  | .boolL v => (.ok ("i1 " ++ (if v then "1" else "0")), st)
  | .charL c => (.ok ("i8 " ++ toString c), st)
  | .strL s =>
    let (global_name, st) := st.get_or_create_string_constant s
    let (temp, st) := st.new_temp
    let len := s.length + 1
    let st := st.emit (.gepStr temp len global_name)
    (.ok ("i8* " ++ temp), st)
  | .nullL => (.ok "i64 0", st)

/-- `generate_identifier` (identifier.rs:13): a registered class name
yields the `i64 0` placeholder with nothing emitted; otherwise the current
class's static-field table is consulted, then the scope manager, then the
legacy `var_types` map whose miss silently defaults the type to `i64`; a
load from the resolved storage is emitted. -/
def generate_identifier (st : St) (name : String) : cayResult String × St :=
  let isClass := match st.type_registry with
    | some registry => registry.class_exists name
    | none => false
  if isClass then
    (.ok "i64 0", st)
  else
    let staticHit : Option FieldInfo :=
      if st.current_class ≠ "" then
        lookupA st.static_field_map (st.current_class ++ "." ++ name)
      else none
    match staticHit with
    | some field_info =>
      let (temp, st) := st.new_temp
      let align := st.get_type_align field_info.llvm_type
      let st := st.emit (.load temp field_info.llvm_type field_info.name (some align))
      (.ok (field_info.llvm_type ++ " " ++ temp), st)
    | none =>
      let (temp, st) := st.new_temp
      let (var_type, llvm_name) :=
        match st.scope_get_var_type name with
        | some scope_type => (scope_type, (st.scope_get_llvm_name name).getD name)
        | none => ((lookupA st.var_types name).getD "i64", name)
      let align := st.get_type_align var_type
      let st := st.emit (.load temp var_type ("%" ++ llvm_name) (some align))
      (.ok (var_type ++ " " ++ temp), st)

/-- `get_lvalue_info` (utils.rs:153) restricted to the embedded fragment
(which has no array-access expressions): an identifier resolves through
the scope manager, then the current class's static fields, then the
legacy `var_types` map, and a miss in all three is a hard error; any
non-identifier is an invalid lvalue. -/
def get_lvalue_info (st : St) : Expr → cayResult (String × String) × St
  | .identifier name =>
    match st.scope_get_var_type name with
    | some scope_type =>
      let llvm_name := (st.scope_get_llvm_name name).getD name
      (.ok (scope_type, "%" ++ llvm_name), st)
    | none =>
      let staticHit : Option FieldInfo :=
        if st.current_class ≠ "" then
          lookupA st.static_field_map (st.current_class ++ "." ++ name)
        else none
      match staticHit with
      | some field_info => (.ok (field_info.llvm_type, field_info.name), st)
      | none =>
        match lookupA st.var_types name with
        | some var_type => (.ok (var_type, "%" ++ name), st)
        | none => (.error ("Variable '" ++ name ++ "' not found"), st)
  | _ => (.error "Invalid lvalue expression", st)

/-- `llvm_type_to_signature` (utils.rs:215): one-letter signature code per
LLVM type; `i8*` is the string code, any other pointer the object/array
code, unknown types `x`. -/
def llvm_type_to_signature (llvm_type : String) : String :=
  if llvm_type = "i32" then "i"
  else if llvm_type = "i64" then "l"
  else if llvm_type = "float" then "f"
  else if llvm_type = "double" then "d"
  else if llvm_type = "i1" then "b"
  else if llvm_type = "i8*" then "s"
  else if llvm_type = "i8" then "c"
  else if chEndsWith llvm_type "*" then "o"
  else "x"

/-- `param_type_to_signature` (call.rs:214): signature code of a declared
parameter type; a varargs-array position is always encoded `ai`. -/
def param_type_to_signature (st : St) : Ty → Bool → String
  | _, true => "ai"
  | .int32, false => "i"
  | .int64, false => "l"
  | .float32, false => "f"
  | .float64, false => "d"
  | .bool, false => "b"
  | .str, false => "s"
  | .char, false => "c"
  | .object name, false => "o" ++ name
  | .array inner, false => "a" ++ param_type_to_signature st inner false
  | .void, false => "x"

/-- `build_function_name_from_method` (call.rs:197): mangled symbol built
from the class name, method name and the overload's own declared
parameter-type codes. -/
def build_function_name_from_method (st : St) (class_name method_name : String)
    (params : List ParameterInfo) (has_varargs_array : Bool) : String :=
  if params.isEmpty then
    class_name ++ "." ++ method_name
  else
    let n := params.length
    let param_types := params.enum.map (fun p =>
      let is_last_varargs := has_varargs_array && p.1 = n - 1 && p.2.is_varargs
      param_type_to_signature st p.2.param_type is_last_varargs)
    class_name ++ ".__" ++ method_name ++ "_" ++ String.intercalate "_" param_types

/-- The caller-side argument-type code list computed identically at
call.rs:113-125 and call.rs:236-248: each generated operand's type is
encoded, with the last position rewritten to `ai` when a varargs array was
packed. -/
def call_arg_types (st : St) (processed_args : List String)
    (has_varargs_array : Bool) : List String :=
  let n := processed_args.length
  processed_args.enum.map (fun r =>
    let ty := (st.parse_typed_value r.2).1
    let is_varargs_array := has_varargs_array && r.1 = n - 1
    if is_varargs_array then "ai" else llvm_type_to_signature ty)

/-- `is_varargs_method` (call.rs:302): whether any registered overload of
the method has a trailing varargs parameter; false without a registry. -/
def is_varargs_method (st : St) (class_name method_name : String) : Bool :=
  match st.type_registry with
  | some registry =>
    match registry.get_class class_name with
    | some class_info =>
      match lookupA class_info.methods method_name with
      | some methods =>
        methods.any (fun m => ((m.params.getLast?).map (fun p => p.is_varargs)).getD false)
      | none => false
    | none => false
  | none => false

/-- The hard-coded fixed-parameter-count table of `pack_varargs_args`
(call.rs:324-329), also duplicated at call.rs:71-76. -/
def fixed_count_table (method_name : String) : Nat :=
  match method_name with
  | "sum" => 0
  | "printAll" => 1
  | "multiplyAndAdd" => 1
  | _ => 0

/-- `pack_varargs_args` (call.rs:322): split the generated arguments at
the hard-coded fixed count, allocate a `4 * n`-byte array with `calloc`,
store each trailing argument that is `i32` (directly) or `i64` (truncated
to `i32`) into its 4-byte slot — any other type gets no store — and
return the fixed arguments followed by the array pointer. -/
def pack_varargs_args (st : St) (_class_name method_name : String)
    (arg_results : List String) : cayResult (List String) × St :=
  let fixed_param_count := fixed_count_table method_name
  if arg_results.length ≤ fixed_param_count then
    (.ok arg_results, st)
  else
    let fixed_args := arg_results.take fixed_param_count
    let varargs := arg_results.drop fixed_param_count
    let array_size := varargs.length
    let (array_ptr, st) := st.new_temp
    let elem_size := 4
    let total_size := array_size * elem_size
    let st := st.emit (.calloc array_ptr (toString total_size))
    let st := packLoop st array_ptr varargs 0
    (.ok (fixed_args ++ ["i8* " ++ array_ptr]), st)
where
  /-- the per-slot store loop of call.rs:351-371 -/
  packLoop : St → String → List String → Nat → St
    | st, _, [], _ => st
    | st, array_ptr, arg :: rest, i =>
      let (arg_type, arg_val) := st.parse_typed_value arg
      let (elem_ptr_i8, st) := st.new_temp
      let (elem_ptr_i32, st) := st.new_temp
      let offset := i * 4
      let st := st.emit (.gep elem_ptr_i8 "i8" array_ptr (toString offset))
      let st := st.emit (.bitcast elem_ptr_i32 "i8*" elem_ptr_i8 "i32*")
      let st :=
        if arg_type = "i64" then
          let (truncated, st) := st.new_temp
          let st := st.emit (.conv truncated "trunc" "i64" arg_val "i32")
          st.emit (.store "i32" truncated elem_ptr_i32 (some 4))
        else if arg_type = "i32" then
          st.emit (.store "i32" arg_val elem_ptr_i32 (some 4))
        else st
      packLoop st array_ptr rest (i + 1)

/-- The exact-signature pass of `generate_function_name`
(call.rs:136-160): among a class's overloads, return the mangled name of
the first one whose own parameter encoding equals the caller's encoding,
subject to the varargs minimum-count or exact-arity rule. -/
def fn_name_exact_pass (st : St) (current_class_name method_name : String)
    (arg_count : Nat) (arg_types : List String) (has_varargs_array : Bool)
    (methods : List MethodInfo) : Option String :=
  methods.findSome? (fun m =>
    let param_count := m.params.length
    let is_varargs := ((m.params.getLast?).map (fun p => p.is_varargs)).getD false
    let method_sig :=
      build_function_name_from_method st current_class_name method_name m.params
        has_varargs_array
    let expected_sig :=
      current_class_name ++ ".__" ++ method_name ++ "_" ++ String.intercalate "_" arg_types
    if is_varargs then
      if arg_count ≥ param_count - 1 then
        if method_sig = expected_sig then some method_sig else none
      else none
    else if param_count = arg_count then
      if method_sig = expected_sig then some method_sig else none
    else none)

/-- The arity-fallback pass of `generate_function_name` (call.rs:162-175):
return the mangled name of the first overload matching by argument count
alone (varargs overloads match any count at least their fixed count). -/
def fn_name_arity_pass (st : St) (current_class_name method_name : String)
    (arg_count : Nat) (has_varargs_array : Bool)
    (methods : List MethodInfo) : Option String :=
  methods.findSome? (fun m =>
    let param_count := m.params.length
    let is_varargs := ((m.params.getLast?).map (fun p => p.is_varargs)).getD false
    if is_varargs then
      if arg_count ≥ param_count - 1 then
        some (build_function_name_from_method st current_class_name method_name m.params
          has_varargs_array)
      else none
    else if param_count = arg_count then
      some (build_function_name_from_method st current_class_name method_name m.params
        has_varargs_array)
    else none)

/-- The parent-chain walk of `generate_function_name` (call.rs:128-185):
try the exact pass then the arity pass in the current class, then follow
the parent link; the walk is fueled because the source's `loop` is bounded
only by the (finite, acyclic) registry parent chain. -/
def fn_name_walk (st : St) (registry : Registry) (method_name : String)
    (arg_count : Nat) (arg_types : List String) (has_varargs_array : Bool) :
    Nat → String → Option String
  | 0, _ => none
  | fuel + 1, current_class_name =>
    match registry.get_class current_class_name with
    | none => none
    | some class_info =>
      let hit :=
        match lookupA class_info.methods method_name with
        | some methods =>
          match fn_name_exact_pass st current_class_name method_name arg_count arg_types
              has_varargs_array methods with
          | some s => some s
          | none =>
            fn_name_arity_pass st current_class_name method_name arg_count
              has_varargs_array methods
        | none => none
      match hit with
      | some s => some s
      | none =>
        match class_info.parent with
        | some parent_name =>
          fn_name_walk st registry method_name arg_count arg_types has_varargs_array
            fuel parent_name
        | none => none

/-- `generate_function_name` (call.rs:111): resolve the concrete mangled
symbol of a call from the registry (exact signature first, then arity,
walking up the inheritance chain), falling back to a name mangled from
the actual argument encodings. -/
def generate_function_name (st : St) (class_name method_name : String)
    (processed_args : List String) (has_varargs_array : Bool) : String :=
  let arg_types := call_arg_types st processed_args has_varargs_array
  let registry_hit :=
    match st.type_registry with
    | some registry =>
      fn_name_walk st registry method_name processed_args.length arg_types
        has_varargs_array (registry.classes.length + 1) class_name
    | none => none
  match registry_hit with
  | some s => s
  | none =>
    if arg_types.isEmpty then
      class_name ++ "." ++ method_name
    else
      class_name ++ ".__" ++ method_name ++ "_" ++ String.intercalate "_" arg_types

/-- `get_method_return_type` (call.rs:234): return type of the resolved
overload — exact-signature pass then arity pass, in the named class only
(no parent walk) — defaulting to the 64-bit integer type. -/
def get_method_return_type (st : St) (class_name method_name : String)
    (processed_args : List String) (has_varargs_array : Bool) : Ty :=
  let arg_types := call_arg_types st processed_args has_varargs_array
  let arg_count := processed_args.length
  let hit : Option Ty :=
    match st.type_registry with
    | some registry =>
      match registry.get_class class_name with
      | some class_info =>
        match lookupA class_info.methods method_name with
        | some methods =>
          let exact := methods.findSome? (fun m =>
            let param_count := m.params.length
            let is_varargs := ((m.params.getLast?).map (fun p => p.is_varargs)).getD false
            let method_sig :=
              build_function_name_from_method st class_name method_name m.params
                has_varargs_array
            let expected_sig :=
              class_name ++ ".__" ++ method_name ++ "_" ++ String.intercalate "_" arg_types
            if is_varargs then
              if arg_count ≥ param_count - 1 then
                if method_sig = expected_sig then some m.return_type else none
              else none
            else if param_count = arg_count then
              if method_sig = expected_sig then some m.return_type else none
            else none)
          match exact with
          | some t => some t
          | none =>
            methods.findSome? (fun m =>
              let param_count := m.params.length
              let is_varargs := ((m.params.getLast?).map (fun p => p.is_varargs)).getD false
              if is_varargs then
                if arg_count ≥ param_count - 1 then some m.return_type else none
              else if param_count = arg_count then some m.return_type
              else none)
        | none => none
      | none => none
    | none => none
  hit.getD Ty.int64

/-- `get_md_array_type` (array.rs:222): LLVM type of a multi-dimensional
array — the element type followed by one `*` per dimension. -/
def get_md_array_type (st : St) (element_type : Ty) (dimensions : Nat) : String :=
  st.type_to_llvm element_type ++ String.mk (List.replicate dimensions '*')

/-- The last text line of a generated code slice, as the source computes
it with `code.trim().lines().last()`: the last non-empty rendered line of
the slice's final buffer entry. -/
def lastTextLine (lines : List Line) : Option String :=
  match lines.getLast? with
  | none => none
  | some l => ((chLines l.render).filter (fun s => s ≠ "")).getLast?

/-- The terminator test the source applies to a trimmed last line
(if_stmt.rs:51 and if_stmt.rs:77): does it start with one of the
terminator opcode tokens. -/
def startsTerm (s : String) : Bool :=
  let t := chTrim s
  chStartsWith t "ret" || chStartsWith t "br" || chStartsWith t "switch" ||
    chStartsWith t "unreachable"

/-- `generate_break_statement` (jump_stmt.rs:10): branch to the innermost
loop's end label; outside any loop this is a hard error. -/
def generate_break_statement (st : St) : cayResult Unit × St :=
  match st.current_loop with
  | some loop_ctx => (.ok (), st.emit (.brLabel loop_ctx.end_label))
  | none => (.error "break statement outside of loop", st)

/-- `generate_continue_statement` (jump_stmt.rs:20): branch to the
innermost loop's condition label; outside any loop this is a hard error. -/
def generate_continue_statement (st : St) : cayResult Unit × St :=
  match st.current_loop with
  | some loop_ctx => (.ok (), st.emit (.brLabel loop_ctx.cond_label))
  | none => (.error "continue statement outside of loop", st)

/-- Fresh labels for every switch case (switch_stmt.rs:24-28), pairing
each case with its generated label. -/
def mkCaseLabels : St → List (Int × List Stmt) → (List ((Int × List Stmt) × String)) × St
  | st, [] => ([], st)
  | st, c :: rest =>
    let (label, st) := st.new_label ("switch.case." ++ toString c.1)
    let (others, st) := mkCaseLabels st rest
    ((c, label) :: others, st)

/-- Type of the expression-generator callback threaded through the
expression helpers: the recursive `generate_expression` knot below, one
fuel step down. -/
abbrev GenE := St → Expr → cayResult String × St

/-- Type of the statement-generator callback threaded through the
statement helpers. -/
abbrev GenS := St → Stmt → cayResult Unit × St

/-- `generate_binary_expression` (binary.rs:14): generate both operands,
split each typed value, draw the result temp and dispatch on the
operator. -/
def generate_binary_expression (genE : GenE) (st : St) (op : BinaryOp)
    (l r : Expr) : cayResult String × St :=
  bindR (genE st l) fun left st =>
  bindR (genE st r) fun right st =>
  let (left_type, left_val) := st.parse_typed_value left
  let (right_type, right_val) := st.parse_typed_value right
  let (temp, st) := st.new_temp
  match op with
  | .add => generate_add st left_type left_val right_type right_val temp
  | .div => generate_div st left_type left_val right_type right_val temp
  | .mod => generate_mod st left_type left_val right_type right_val temp
  | .lt => generate_lt st left_type left_val right_type right_val temp

/-- `generate_member_access` (member.rs:14): a class-qualified name is
first checked against the static-field table; `.length` on a
pointer-typed operand loads the 4-byte count located 8 bytes before the
pointer; everything else degrades to an opaque `i8*` passthrough of the
object value. -/
def generate_member_access (genE : GenE) (st : St) (obj : Expr) (member : String) :
    cayResult String × St :=
  let staticHit : Option FieldInfo :=
    match obj with
    | .identifier class_name => lookupA st.static_field_map (class_name ++ "." ++ member)
    | _ => none
  match staticHit with
  | some field_info =>
    let (temp, st) := st.new_temp
    let align := st.get_type_align field_info.llvm_type
    let st := st.emit (.load temp field_info.llvm_type field_info.name (some align))
    (.ok (field_info.llvm_type ++ " " ++ temp), st)
  | none =>
    if member = "length" then
      bindR (genE st obj) fun o st =>
      let (obj_type, obj_val) := st.parse_typed_value o
      if chEndsWith obj_type "*" then
        let (obj_i8, st) := st.new_temp
        let st := st.emit (.bitcast obj_i8 obj_type obj_val "i8*")
        let (len_ptr_i8, st) := st.new_temp
        let st := st.emit (.gep len_ptr_i8 "i8" obj_i8 "-8")
        let (len_ptr, st) := st.new_temp
        let st := st.emit (.bitcast len_ptr "i8*" len_ptr_i8 "i32*")
        let (len_val, st) := st.new_temp
        let st := st.emit (.load len_val "i32" len_ptr (some 4))
        (.ok ("i32 " ++ len_val), st)
      else
        bindR (genE st obj) fun o2 st =>
        let (_t, val) := st.parse_typed_value o2
        (.ok ("i8* " ++ val), st)
    else
      bindR (genE st obj) fun o st =>
      let (_t, val) := st.parse_typed_value o
      (.ok ("i8* " ++ val), st)

/-- `generate_1d_array_creation` (array.rs:32): evaluate the size, widen
it to `i64` for allocation and narrow a copy to `i32` for the header,
allocate `size * elem_size + 8` zeroed bytes, store the `i32` count into
the first 4 bytes, and return a pointer 8 bytes past the allocation cast
to the element type. -/
def generate_1d_array_creation (genE : GenE) (st : St) (element_type : Ty)
    (size_expr : Expr) : cayResult String × St :=
  bindR (genE st size_expr) fun size_val_expr st =>
  let (size_type, size_val) := st.parse_typed_value size_val_expr
  if !(chStartsWith size_type "i") then
    (.error ("Array size must be integer, got " ++ size_type), st)
  else
    let (size_i64, st) :=
      if size_type ≠ "i64" then
        let (temp, st) := st.new_temp
        (temp, st.emit (.conv temp "sext" size_type size_val "i64"))
      else (size_val, st)
    let (size_i32, st) :=
      if size_type ≠ "i32" then
        let (temp, st) := st.new_temp
        (temp, st.emit (.conv temp "trunc" size_type size_val "i32"))
      else (size_val, st)
    let elem_type := st.type_to_llvm element_type
    let elem_size : Nat :=
      match element_type with
      | .int32 => 4
      | .int64 => 8
      | .float32 => 4
      | .float64 => 8
      | .bool => 1
      | .char => 1
      | .str => 8
      | .object _ => 8
      | .array _ => 8
      | _ => 8
    let (data_bytes_temp, st) := st.new_temp
    let st := st.emit (.binop data_bytes_temp "mul" "i64" size_i64 (toString elem_size))
    let (total_bytes_temp, st) := st.new_temp
    let st := st.emit (.binop total_bytes_temp "add" "i64" data_bytes_temp "8")
    let (calloc_temp, st) := st.new_temp
    let st := st.emit (.calloc calloc_temp total_bytes_temp)
    let (len_ptr, st) := st.new_temp
    let st := st.emit (.bitcast len_ptr "i8*" calloc_temp "i32*")
    let st := st.emit (.store "i32" size_i32 len_ptr (some 4))
    let (data_ptr, st) := st.new_temp
    let st := st.emit (.gep data_ptr "i8" calloc_temp "8")
    let (cast_temp, st) := st.new_temp
    let st := st.emit (.bitcast cast_temp "i8*" data_ptr (elem_type ++ "*"))
    (.ok (elem_type ++ "* " ++ cast_temp), st)

/-- `generate_md_array_creation` (array.rs:111): allocate a bare pointer
array sized to the first dimension (no length header) and emit an
explicit loop that allocates one sub-array per index and stores its
pointer; the returned operand is the raw pointer-array pointer. -/
def generate_md_array_creation (genE : GenE) (st : St) (element_type : Ty) :
    List Expr → cayResult String × St
  | s0 :: s1 :: rest =>
    let sub_sizes := s1 :: rest
    bindR (genE st s0) fun first_size_expr st =>
    let (first_size_type, first_size_val) := st.parse_typed_value first_size_expr
    let (first_size_i64, st) :=
      if first_size_type ≠ "i64" then
        let (temp, st) := st.new_temp
        (temp, st.emit (.conv temp "sext" first_size_type first_size_val "i64"))
      else (first_size_val, st)
    let elem_llvm_type := st.type_to_llvm element_type
    let sub_array_llvm_type :=
      if sub_sizes.length = 1 then elem_llvm_type ++ "*"
      else get_md_array_type st element_type sub_sizes.length ++ "*"
    let (ptr_array_bytes, st) := st.new_temp
    let st := st.emit (.binop ptr_array_bytes "mul" "i64" first_size_i64 "8")
    let (calloc_ptr_array, st) := st.new_temp
    let st := st.emit (.calloc calloc_ptr_array ptr_array_bytes)
    let (ptr_array, st) := st.new_temp
    let st := st.emit (.bitcast ptr_array "i8*" calloc_ptr_array (sub_array_llvm_type ++ "*"))
    let (loop_label, st) := st.new_label "md_loop"
    let (body_label, st) := st.new_label "md_body"
    let (end_label, st) := st.new_label "md_end"
    let (loop_var, st) := st.new_temp
    let st := st.emit (.alloca loop_var "i64")
    let st := st.emit (.store "i64" "0" loop_var none)
    let st := st.emit (.brLabel loop_label)
    let st := st.emit (.label true loop_label)
    let (current_idx, st) := st.new_temp
    let st := st.emit (.load current_idx "i64" loop_var none)
    let (cond, st) := st.new_temp
    let st := st.emit (.icmp cond "slt" "i64" current_idx first_size_i64)
    let st := st.emit (.condbr cond body_label end_label)
    let st := st.emit (.label true body_label)
    bindR (if sub_sizes.length = 1 then
        generate_1d_array_creation genE st element_type s1
      else
        generate_md_array_creation genE st element_type sub_sizes) fun sub_array st =>
    let (_, sub_array_val) := st.parse_typed_value sub_array
    let (elem_ptr, st) := st.new_temp
    let st := st.emit (.gep elem_ptr sub_array_llvm_type ptr_array current_idx)
    let st := st.emit (.store sub_array_llvm_type sub_array_val elem_ptr none)
    let (next_idx, st) := st.new_temp
    let st := st.emit (.binop next_idx "add" "i64" current_idx "1")
    let st := st.emit (.store "i64" next_idx loop_var none)
    let st := st.emit (.brLabel loop_label)
    let st := st.emit (.label true end_label)
    (.ok (sub_array_llvm_type ++ "* " ++ ptr_array), st)
  | _ => (.error "Multidimensional array needs at least 2 dimensions", st)

/-- `generate_array_creation` (array.rs:15): one size expression goes to
the one-dimensional generator, more go to the multi-dimensional one. -/
def generate_array_creation (genE : GenE) (st : St) (element_type : Ty)
    (sizes : List Expr) : cayResult String × St :=
  match sizes with
  | [size] => generate_1d_array_creation genE st element_type size
  | _ => generate_md_array_creation genE st element_type sizes

/-- The argument-generation loop of `generate_call_expression`
(call.rs:62-65). -/
def gen_call_args (genE : GenE) (st : St) : List Expr → cayResult (List String) × St
  | [] => (.ok [], st)
  | a :: rest =>
    bindR (genE st a) fun r st =>
    bindR (gen_call_args genE st rest) fun rs st =>
    (.ok (r :: rs), st)

/-- The user-method path of `generate_call_expression` (call.rs:35-108)
for an identifier callee: determine the receiver class from the current
class, detect a varargs target, generate the arguments, pack trailing
varargs, resolve the mangled name and return type, and emit the call.
The builtin print/read interception (call.rs:15-25) precedes this path in
the source and applies only to those fixed names. -/
def generate_user_call (genE : GenE) (st : St) (name : String) (args : List Expr) :
    cayResult String × St :=
  let (class_name, method_name) :=
    if st.current_class ≠ "" then (st.current_class, name) else ("", name)
  let is_varargs := is_varargs_method st class_name method_name
  bindR (gen_call_args genE st args) fun arg_results st =>
  bindR (if is_varargs then
      bindR (pack_varargs_args st class_name method_name arg_results) fun packed st =>
      let fixed_count := fixed_count_table method_name
      let has_array := decide (arg_results.length > fixed_count)
      (.ok (packed, has_array), st)
    else
      (.ok (arg_results, false), st)) fun pa st =>
  let processed_args := pa.1
  let has_varargs_array := pa.2
  let fn_name :=
    generate_function_name st class_name method_name processed_args has_varargs_array
  let converted_args := processed_args
  let ret_type :=
    get_method_return_type st class_name method_name processed_args has_varargs_array
  let llvm_ret_type := st.type_to_llvm ret_type
  if llvm_ret_type = "void" then
    (.ok "void %dummy", st.emit (.callFn none "void" fn_name converted_args))
  else
    let (temp, st) := st.new_temp
    (.ok (llvm_ret_type ++ " " ++ temp),
      st.emit (.callFn (some temp) llvm_ret_type fn_name converted_args))

/-- `generate_return_statement` (return_stmt.rs:11): generate the operand
and coerce float/double width changes and integer width changes to the
declared return type; any other mismatch returns the operand unconverted;
a missing operand or a void return type emits `ret void`. -/
def generate_return_statement (genE : GenE) (st : St) :
    Option Expr → cayResult Unit × St
  | none => (.ok (), st.emit (.ret "void"))
  | some ex =>
    bindR (genE st ex) fun value st =>
    let (value_type, val) := st.parse_typed_value value
    let ret_type := st.current_return_type
    if ret_type = "void" then
      (.ok (), st.emit (.ret "void"))
    else if value_type ≠ ret_type then
      let (temp, st) := st.new_temp
      if value_type = "double" ∧ ret_type = "float" then
        let st := st.emit (.conv temp "fptrunc" "double" val "float")
        (.ok (), st.emit (.ret ("float " ++ temp)))
      else if value_type = "float" ∧ ret_type = "double" then
        let st := st.emit (.conv temp "fpext" "float" val "double")
        (.ok (), st.emit (.ret ("double " ++ temp)))
      else if chStartsWith value_type "i" ∧ chStartsWith ret_type "i" then
        let from_bits := intBits value_type
        let to_bits := intBits ret_type
        let st :=
          if to_bits > from_bits then
            st.emit (.conv temp "sext" value_type val ret_type)
          else
            st.emit (.conv temp "trunc" value_type val ret_type)
        (.ok (), st.emit (.ret (ret_type ++ " " ++ temp)))
      else
        (.ok (), st.emit (.ret value))
    else
      (.ok (), st.emit (.ret value))

/-- The in-order statement loop of `generate_block` (block.rs:15-17). -/
def generate_stmt_list (genS : GenS) (st : St) : List Stmt → cayResult Unit × St
  | [] => (.ok (), st)
  | s :: rest =>
    bindR (genS st s) fun _ st =>
    generate_stmt_list genS st rest

/-- The entry section of `generate_if_statement` (if_stmt.rs:12-39):
draw the then/else/merge labels, generate and normalize the condition,
emit the conditional branch (whose false target is the else label when an
else exists, the merge label otherwise) and open the then block. -/
def if_entry (genE : GenE) (st : St) (cond : Expr) (has_else : Bool) :
    cayResult Unit × St :=
  let (then_label, st) := st.new_label "then"
  let (else_label, st) := st.new_label "else"
  let (merge_label, st) := st.new_label "ifmerge"
  bindR (genE st cond) fun condV st =>
  let (cond_type, cond_val) := st.parse_typed_value condV
  let (cond_reg, st) := st.new_temp
  let st :=
    if cond_type = "i1" then st.emit (.icmp cond_reg "ne" "i1" cond_val "0")
    else st.emit (.icmp cond_reg "ne" cond_type cond_val "0")
  let st :=
    if has_else then st.emit (.condbr cond_reg then_label else_label)
    else st.emit (.condbr cond_reg then_label merge_label)
  (.ok (), st.emit (.label false then_label))

/-- One branch body of `generate_if_statement` together with its
terminator bookkeeping (if_stmt.rs:40-61, duplicated for the else branch
at 67-87): generate the branch, inspect the last emitted text line of the
newly generated slice, and either report detected termination or append
the explicit fallthrough branch to the merge label. -/
def if_branch_stage (genS : GenS) (st : St) (branch : Stmt) (merge_label : String) :
    cayResult Bool × St :=
  let code_before := st.buf.length
  bindR (genS st branch) fun _ st =>
  let code_after := st.buf.length
  if code_before < code_after then
    match lastTextLine (st.buf.drop code_before) with
    | some last_line =>
      if startsTerm last_line then (.ok true, st)
      else (.ok false, st.emit (.brLabel merge_label))
    | none => (.ok false, st.emit (.brLabel merge_label))
  else (.ok false, st.emit (.brLabel merge_label))

/-- `generate_if_statement` (if_stmt.rs:11): entry section, then branch,
optional else branch (opened by the else label), and the merge label,
marked `unreachable` exactly when an else exists and both branch stages
detected termination; without an else the merge is never marked. -/
def generate_if_statement (genE : GenE) (genS : GenS) (st : St) (cond : Expr)
    (then_branch : Stmt) (else_branch : Option Stmt) : cayResult Unit × St :=
  let else_label := ((st.new_label "then").2.new_label "else").1
  let merge_label := (((st.new_label "then").2.new_label "else").2.new_label "ifmerge").1
  let has_else := else_branch.isSome
  bindR (if_entry genE st cond has_else) fun _ st =>
  bindR (if_branch_stage genS st then_branch merge_label) fun then_terminates st =>
  bindR (match else_branch with
    | some eb =>
      let st := st.emit (.label false else_label)
      if_branch_stage genS st eb merge_label
    | none => (.ok false, st)) fun else_terminates st =>
  let st := st.emit (.label false merge_label)
  let merge_is_unreachable :=
    if has_else then then_terminates && else_terminates else false
  let st := if merge_is_unreachable then st.emit .unreachable else st
  (.ok (), st)

/-- One switch case body (the inner loop of switch_stmt.rs:58-75):
generate statements until a `break` branches to the end label and stops
the body; a body that runs to its end reports fallthrough. -/
def gen_case_body (genS : GenS) (st : St) (end_label : String) :
    List Stmt → cayResult Bool × St
  | [] => (.ok true, st)
  | [s] =>
    match s with
    | .breakS => (.ok false, st.emit (.brLabel end_label))
    | _ => bindR (genS st s) fun _ st => (.ok true, st)
  | s :: rest =>
    match s with
    | .breakS => (.ok false, st.emit (.brLabel end_label))
    | _ =>
      bindR (genS st s) fun _ st =>
      gen_case_body genS st end_label rest

/-- The per-case emission loop of `generate_switch_statement`
(switch_stmt.rs:47-92): emit each case's label and body; an
empty-or-unterminated body falls through with an explicit branch to the
next case's label, or to the default/end label after the last case. -/
def gen_case_blocks (genS : GenS) (st : St) (end_label default_label : String)
    (has_default : Bool) : List ((Int × List Stmt) × String) → cayResult Unit × St
  | [] => (.ok (), st)
  | (c, label) :: rest =>
    let st := st.emit (.label false label)
    bindR (if c.2.isEmpty then (.ok true, st)
      else gen_case_body genS st end_label c.2) fun ft st =>
    let st :=
      if ft then
        match rest with
        | (_, next_label) :: _ => st.emit (.brLabel next_label)
        | [] =>
          if has_default then st.emit (.brLabel default_label)
          else st.emit (.brLabel end_label)
      else st
    gen_case_blocks genS st end_label default_label has_default rest

/-- The default-body loop of `generate_switch_statement`
(switch_stmt.rs:95-107): generate statements until a `break` branches to
the end label and stops the body. -/
def gen_default_body (genS : GenS) (st : St) (end_label : String) :
    List Stmt → cayResult Unit × St
  | [] => (.ok (), st)
  | s :: rest =>
    match s with
    | .breakS => (.ok (), st.emit (.brLabel end_label))
    | _ =>
      bindR (genS st s) fun _ st =>
      gen_default_body genS st end_label rest

/-- `generate_switch_statement` (switch_stmt.rs:11): end/default labels,
the widened scrutinee, the jump-table `switch` instruction, the case
blocks, the default block — whose trailing branch to the end label is
emitted unconditionally after the body — and the end label. -/
def generate_switch_statement (genE : GenE) (genS : GenS) (st : St) (scrut : Expr)
    (cases : List (Int × List Stmt)) (dflt : Option (List Stmt)) :
    cayResult Unit × St :=
  let (end_label, st) := st.new_label "switch.end"
  let (default_label, st) :=
    if dflt.isSome then st.new_label "switch.default" else (end_label, st)
  bindR (genE st scrut) fun exprV st =>
  let (expr_type, expr_val) := st.parse_typed_value exprV
  let (case_labels, st) := mkCaseLabels st cases
  let (switch_val, st) :=
    if expr_type = "i64" then (expr_val, st)
    else
      let (temp, st) := st.new_temp
      (temp, st.emit (.conv temp "sext" expr_type expr_val "i64"))
  let st := st.emit (.switchHead switch_val default_label)
  let st := case_labels.foldl (fun st cl => st.emit (.switchCase cl.1.1 cl.2)) st
  let st := st.emit .switchClose
  bindR (gen_case_blocks genS st end_label default_label dflt.isSome case_labels)
    fun _ st =>
  bindR (match dflt with
    | some default_body =>
      let st := st.emit (.label false default_label)
      bindR (gen_default_body genS st end_label default_body) fun _ st =>
      (.ok (), st.emit (.brLabel end_label))
    | none => (.ok (), st)) fun _ st =>
  (.ok (), st.emit (.label false end_label))

/-- `generate_expression` (expressions/main.rs:20): dispatch by AST node
to the specific generator.  The recursion is tied through a fuel
parameter, decreasing once per nesting level, purely to satisfy Lean's
termination checking; exhausted fuel surfaces as a modelling-only error,
and theorems about recursion-dependent behavior are stated for runs that
return a real result. -/
def generate_expression : Nat → St → Expr → cayResult String × St
  | 0, st, _ => (.error "out of fuel", st)
  | fuel + 1, st, e =>
    match e with
    | .literal lit => generate_literal st lit
    | .identifier name => generate_identifier st name
    | .binary op l r => generate_binary_expression (generate_expression fuel) st op l r
    | .memberAccess obj m => generate_member_access (generate_expression fuel) st obj m
    | .arrayCreation t sizes => generate_array_creation (generate_expression fuel) st t sizes

/-- `generate_statement` (statement.rs:11): statement dispatch, tied
through the same kind of fuel parameter as `generate_expression`. -/
def generate_statement : Nat → St → Stmt → cayResult Unit × St
  | 0, st, _ => (.error "out of fuel", st)
  | fuel + 1, st, s =>
    match s with
    | .expr e => bindR (generate_expression fuel st e) fun _ st => (.ok (), st)
    | .ret e => generate_return_statement (generate_expression fuel) st e
    | .block stmts =>
      let st := st.enter_scope
      bindR (generate_stmt_list (generate_statement fuel) st stmts) fun _ st =>
      (.ok (), st.exit_scope)
    | .ifS c t eb =>
      generate_if_statement (generate_expression fuel) (generate_statement fuel) st c t eb
    | .switchS sc cs d =>
      generate_switch_statement (generate_expression fuel) (generate_statement fuel) st sc cs d
    | .breakS => generate_break_statement st
    | .continueS => generate_continue_statement st

/-!
A small operational semantics for the subset of emitted IR that the
array-layout claims exercise.  Pointers are integer byte addresses; the
register file maps temporary names to values; memory maps byte addresses
to the word most recently stored at exactly that address; `calloc` is a
bump allocator that zeroes its range.
-/

/-- Machine state of the emitted-IR interpreter. -/
structure RunSt where
  env : String → Option Int
  mem : Int → Int
  allocNext : Int

/-- Parse a decimal integer literal as it appears in emitted IR text. -/
def parseIntStr (s : String) : Option Int :=
  match s.data with
  | c :: rest => if c = '-' then (chToNat? (String.mk rest)).map (fun n => -(n : Int))
      else (chToNat? s).map (fun n => (n : Int))
  | [] => none

/-- Evaluate an operand string: a `%`-prefixed temporary reads the
register file, anything else is a literal. -/
def evalOp (σ : RunSt) (s : String) : Int :=
  if chStartsWith s "%" then (σ.env s).getD 0 else (parseIntStr s).getD 0

/-- Write a register. -/
def setReg (σ : RunSt) (r : String) (v : Int) : RunSt :=
  { σ with env := fun x => if x = r then some v else σ.env x }

/-- Write one memory cell. -/
def setMem (σ : RunSt) (a v : Int) : RunSt :=
  { σ with mem := fun x => if x = a then v else σ.mem x }

/-- Zero a byte range (the effect of `calloc`). -/
def zeroRange (σ : RunSt) (base size : Int) : RunSt :=
  { σ with mem := fun x => if base ≤ x ∧ x < base + size then 0 else σ.mem x }

/-- Byte size of an LLVM type string, for `getelementptr` scaling. -/
def sizeOfLLVMTy (t : String) : Int :=
  if chEndsWith t "*" then 8
  else if t = "i1" then 1
  else if t = "i8" then 1
  else if t = "i32" then 4
  else if t = "float" then 4
  else 8

/-- Signed wrap of a value to `w` bits (the effect of `trunc`). -/
def truncWidth (w : Nat) (v : Int) : Int :=
  (v + 2 ^ (w - 1)) % 2 ^ w - 2 ^ (w - 1)

/-- Effect of one non-control-flow line on the machine state.  `sext`,
`bitcast` and pointer moves preserve the mathematical value; `trunc`
wraps; `getelementptr` scales by the pointee size; `calloc` bump
allocates and zeroes; `alloca` bump allocates 8 bytes. -/
def execLine (σ : RunSt) : Line → RunSt
  | .conv dst op _ val toTy =>
    let v := evalOp σ val
    setReg σ dst (if op = "trunc" then truncWidth (intBits toTy) v else v)
  | .binop dst op ty a b =>
    let va := evalOp σ a
    let vb := evalOp σ b
    let v :=
      if op = "add" then va + vb
      else if op = "sub" then va - vb
      else if op = "mul" then va * vb
      else 0
    setReg σ dst (truncWidth (intBits ty) v)
  | .icmp dst cond _ a b =>
    let va := evalOp σ a
    let vb := evalOp σ b
    let v :=
      if cond = "eq" then (if va = vb then (1 : Int) else 0)
      else if cond = "ne" then (if va = vb then 0 else 1)
      else if cond = "slt" then (if va < vb then 1 else 0)
      else if cond = "sle" then (if va ≤ vb then 1 else 0)
      else if cond = "sgt" then (if vb < va then 1 else 0)
      else if cond = "sge" then (if vb ≤ va then 1 else 0)
      else 0
    setReg σ dst v
  | .calloc dst bytes =>
    let size := evalOp σ bytes
    let base := σ.allocNext
    let σ := zeroRange σ base size
    let σ := { σ with allocNext := base + max size 0 }
    setReg σ dst base
  | .bitcast dst _ val _ => setReg σ dst (evalOp σ val)
  | .store _ val ptr _ => setMem σ (evalOp σ ptr) (evalOp σ val)
  | .gep dst ty base idx => setReg σ dst (evalOp σ base + evalOp σ idx * sizeOfLLVMTy ty)
  | .load dst _ ptr _ => setReg σ dst (σ.mem (evalOp σ ptr))
  | .alloca dst _ =>
    let base := σ.allocNext
    let σ := { σ with allocNext := base + 8 }
    setReg σ dst base
  | _ => σ

/-- Index of the first occurrence of a label in a program. -/
def findLabel (prog : List Line) (name : String) : Option Nat :=
  prog.findIdx? (fun l => match l with | .label _ n => n = name | _ => false)

/-- One interpreter step at a program counter: branches jump via label
lookup, `ret`/`unreachable`/`exit` halt, labels are no-ops, and any other
line executes its `execLine` effect. -/
def stepPC (prog : List Line) (σ : RunSt) (pc : Nat) : Option (RunSt × Nat) :=
  match prog.get? pc with
  | none => none
  | some line =>
    match line with
    | .brLabel l => some (σ, (findLabel prog l).getD prog.length)
    | .condbr c t f =>
      let target := if evalOp σ c ≠ 0 then t else f
      some (σ, (findLabel prog target).getD prog.length)
    | .ret _ => none
    | .unreachable => none
    | .callExit => none
    | l => some (execLine σ l, pc + 1)

/-- Run the interpreter for at most `fuel` steps. -/
def runProg (prog : List Line) : Nat → RunSt → Nat → RunSt
  | 0, σ, _ => σ
  | fuel + 1, σ, pc =>
    match stepPC prog σ pc with
    | none => σ
    | some (σ2, pc2) => runProg prog fuel σ2 pc2

/-- The canonical initial machine state used in the array theorems: empty
register file, arbitrary initial memory contents, allocation cursor at
address 1000. -/
def initRun (mem0 : Int → Int) : RunSt :=
  { env := fun _ => none, mem := mem0, allocNext := 1000 }

/-- Terminator lines of the emitted IR: `ret`, the two branch forms, the
head of a `switch` instruction, and `unreachable`. -/
def isTermL : Line → Bool
  | .brLabel _ => true
  | .condbr _ _ _ => true
  | .switchHead _ _ => true
  | .ret _ => true
  | .unreachable => true
  | _ => false

/-- Continuation lines of a multi-line `switch` instruction (its case arms
and closing bracket), which belong to the preceding `switchHead`. -/
def isSwitchContL : Line → Bool
  | .switchCase _ _ => true
  | .switchClose => true
  | _ => false

/-- Split an emitted buffer into basic blocks: the instruction runs
between consecutive label lines (`blocksAux` carries the current block in
reverse). -/
def blocksAux : List Line → List Line → List (List Line)
  | cur, [] => [cur.reverse]
  | cur, .label _ _ :: rest => cur.reverse :: blocksAux [] rest
  | cur, l :: rest => blocksAux (l :: cur) rest

/-- A structurally valid basic block: ignoring the continuation lines of a
`switch` instruction, no terminator occurs before the last instruction —
so at most one terminator appears and it is the last instruction. -/
def wellFormedBlock (b : List Line) : Bool :=
  let instrs := b.filter (fun l => !(isSwitchContL l))
  instrs.dropLast.all (fun l => !(isTermL l))

/-- A structurally valid control-flow graph: every basic block of the
buffer is well formed. -/
def wellFormedCFG (lines : List Line) : Bool :=
  (blocksAux [] lines).all wellFormedBlock

/-- Number of `store` lines in a buffer. -/
def storeCount (lines : List Line) : Nat :=
  (lines.filter (fun l => match l with | .store _ _ _ _ => true | _ => false)).length

/-- Number of `getelementptr` lines in a buffer. -/
def gepCount (lines : List Line) : Nat :=
  (lines.filter (fun l => match l with | .gep _ _ _ _ => true | _ => false)).length

/-- Number of `trunc` conversion lines in a buffer. -/
def truncCount (lines : List Line) : Nat :=
  (lines.filter (fun l => match l with | .conv _ op _ _ _ => op = "trunc" | _ => false)).length

/-- Whether a typed operand string carries one of the two integer types
the varargs packer stores (`i32` directly, `i64` truncated). -/
def isPackedIntArg (arg : String) : Bool :=
  let ty := (({} : St).parse_typed_value arg).1
  ty = "i32" || ty = "i64"

/-- The integer LLVM type strings the generator produces for non-pointer
integer operands (`i1` booleans, `i8` chars, `i32`/`i64` integers). -/
def intLikeTys : List String := ["i1", "i8", "i32", "i64"]

/-- The decimal-rendering facts about an integer literal that the
operational theorems rely on: its text splits off unchanged after a type
tag, parses back to the same value, and is not a `%`-temporary reference.
Every integer satisfies these; concrete witnesses discharge them by
evaluation. -/
def decimalLit (n : Int) : Prop :=
  ({} : St).parse_typed_value ("i32 " ++ toString n) = ("i32", toString n) ∧
  parseIntStr (toString n) = some n ∧
  chStartsWith (toString n) "%" = false

/-- Fixture: a `string` parameter. -/
def pStr : ParameterInfo := { param_type := .str, is_varargs := false }

/-- Fixture: a trailing `int...` varargs parameter. -/
def pIntVar : ParameterInfo := { param_type := .int32, is_varargs := true }

/-- Fixture: a fixed `int` parameter. -/
def pInt : ParameterInfo := { param_type := .int32, is_varargs := false }

/-- Fixture: the overload `printAll(string, int...) -> void` of the spec's
variadic example. -/
def mPrintAll : MethodInfo := { params := [pStr, pIntVar], return_type := .void }

/-- Fixture: a class `Main` registering `printAll(string, int...)`. -/
def ciPrintAll : ClassInfo := { parent := none, methods := [("printAll", [mPrintAll])] }

/-- Fixture: registry holding `Main.printAll(string, int...)`. -/
def regPrintAll : Registry := { classes := [("Main", ciPrintAll)] }

/-- Fixture: generation state inside class `Main` with the `printAll`
registry. -/
def stPrintAll : St := { type_registry := some regPrintAll, current_class := "Main" }

/-- Fixture: a variadic overload `avg(int, int...) -> int` whose name is
not in the packer's hard-coded fixed-count table. -/
def mAvg : MethodInfo := { params := [pInt, pIntVar], return_type := .int32 }

/-- Fixture: a class `Main` registering `avg(int, int...)`. -/
def ciAvg : ClassInfo := { parent := none, methods := [("avg", [mAvg])] }

/-- Fixture: registry holding `Main.avg(int, int...)`. -/
def regAvg : Registry := { classes := [("Main", ciAvg)] }

/-- Fixture: generation state inside class `Main` with the `avg`
registry. -/
def stAvg : St := { type_registry := some regAvg, current_class := "Main" }

/-- Fixture: a registry containing a class named `Foo` with no members. -/
def regFoo : Registry :=
  { classes := [("Foo", { parent := none, methods := [] })] }

/-- Fixture: generation state where `Foo` is a registered class and at the
same time a scope variable named `Foo` of type `i32` exists. -/
def stFoo : St :=
  { type_registry := some regFoo, scopeStack := [[("Foo", "i32", "Foo_1")]] }

/-- Fixture: generation state inside class `C` where `x` is both a static
field `C.x` and a scope variable, exercising the load-path resolution
order. -/
def stStaticScope : St :=
  { current_class := "C",
    static_field_map := [("C.x", { llvm_type := "i64", name := "@C.x" })],
    scopeStack := [[("x", "i32", "x_1")]] }

/-- Fixture: generation state of a function whose declared return type is
`double`. -/
def stRetDouble : St := { current_return_type := "double" }

/-- C10: for an identifier naming a registered class, `generate_identifier`
returns the constant placeholder operand `i64 0`, emits nothing, and
reports no error — whatever else the state binds under that name. -/
theorem generate_identifier_class_placeholder (st : St) (registry : Registry)
    (name : String) (hreg : st.type_registry = some registry)
    (hcls : registry.class_exists name = true) :
    generate_identifier st name = (.ok "i64 0", st) := by
  simp [generate_identifier, hreg, hcls]

/-- Witness for C10: `Foo` is a registered class while a scope variable
`Foo` of type `i32` also exists, and the identifier still yields the
untouched-state placeholder. -/
theorem generate_identifier_class_placeholder_witness :
    regFoo.class_exists "Foo" = true ∧
    St.scope_get_var_type stFoo "Foo" = some "i32" ∧
    generate_identifier stFoo "Foo" = (.ok "i64 0", stFoo) :=
  ⟨by decide, by decide,
    generate_identifier_class_placeholder stFoo regFoo "Foo" rfl (by decide)⟩

/-- Counterexample to C7: the name `x` is found in none of the three
lookup structures of the empty generation state, yet the identifier load
is not a hard error — it silently defaults to an `i64` load from `%x`. -/
theorem generate_identifier_unknown_name_not_error :
    St.scope_get_var_type ({} : St) "x" = none ∧
    ({} : St).static_field_map = [] ∧
    lookupA ({} : St).var_types "x" = none ∧
    generate_identifier ({} : St) "x" =
      (.ok "i64 %1",
       { tempCtr := 1, buf := [.load "%1" "i64" "%x" (some 8)] }) :=
  ⟨rfl, rfl, rfl, rfl⟩

/-- C7 as amended: on the load path the static-field table is consulted
before the scope manager, and a name missing from every table defaults to
an `i64` load with no error; the scope-first lookup with a hard error on
a total miss holds on the lvalue path (`get_lvalue_info`). -/
theorem identifier_resolution_order :
    (∀ (st : St) (name : String) (fi : FieldInfo),
      (match st.type_registry with
       | some r => r.class_exists name
       | none => false) = false →
      st.current_class ≠ "" →
      lookupA st.static_field_map (st.current_class ++ "." ++ name) = some fi →
      generate_identifier st name =
        (.ok (fi.llvm_type ++ " " ++ ("%" ++ toString (st.tempCtr + 1))),
         (st.new_temp).2.emit
           (.load ("%" ++ toString (st.tempCtr + 1)) fi.llvm_type fi.name
             (some (st.get_type_align fi.llvm_type))))) ∧
    (∀ (st : St) (name : String),
      (match st.type_registry with
       | some r => r.class_exists name
       | none => false) = false →
      (st.current_class ≠ "" →
        lookupA st.static_field_map (st.current_class ++ "." ++ name) = none) →
      st.scope_get_var_type name = none →
      lookupA st.var_types name = none →
      generate_identifier st name =
        (.ok ("i64 " ++ ("%" ++ toString (st.tempCtr + 1))),
         (st.new_temp).2.emit
           (.load ("%" ++ toString (st.tempCtr + 1)) "i64" ("%" ++ name) (some 8)))) ∧
    (∀ (st : St) (name : String),
      st.scope_get_var_type name = none →
      (st.current_class ≠ "" →
        lookupA st.static_field_map (st.current_class ++ "." ++ name) = none) →
      lookupA st.var_types name = none →
      (get_lvalue_info st (.identifier name)).1 =
        .error ("Variable '" ++ name ++ "' not found")) := by
  refine ⟨?_, ?_, ?_⟩
  · intro st name fi hreg hcc hstat
    simp [generate_identifier, hreg, hcc, hstat, St.new_temp, St.get_type_align, St.emit]
  · intro st name hreg hstat hscope hvar
    have hfind : st.scopeStack.findSome? (fun sc => sc.find? (fun b => b.1 = name)) = none := by
      rcases h : st.scopeStack.findSome? (fun sc => sc.find? (fun b => b.1 = name)) with _ | b
      · exact h
      · simp [St.scope_get_var_type, h] at hscope
    by_cases hcc : st.current_class = ""
    · simp [generate_identifier, hreg, hcc, St.scope_get_var_type, hfind, hvar,
        St.new_temp, St.get_type_align, St.emit]
    · simp [generate_identifier, hreg, hcc, hstat hcc, St.scope_get_var_type, hfind,
        hvar, St.new_temp, St.get_type_align, St.emit]
  · intro st name hscope hstat hvar
    have hfind : st.scopeStack.findSome? (fun sc => sc.find? (fun b => b.1 = name)) = none := by
      rcases h : st.scopeStack.findSome? (fun sc => sc.find? (fun b => b.1 = name)) with _ | b
      · exact h
      · simp [St.scope_get_var_type, h] at hscope
    by_cases hcc : st.current_class = ""
    · simp [get_lvalue_info, St.scope_get_var_type, hfind, hcc, hvar]
    · simp [get_lvalue_info, St.scope_get_var_type, hfind, hcc, hstat hcc, hvar]

/-- Witness for C7 as amended: at `stStaticScope` the static field `C.x`
wins over the scope binding of `x`; at the empty state an unknown name
defaults to an `i64` load on the load path and errors on the lvalue
path. -/
theorem identifier_resolution_order_witness :
    generate_identifier stStaticScope "x" =
      (.ok "i64 %1",
       (stStaticScope.new_temp).2.emit (.load "%1" "i64" "@C.x" (some 8))) ∧
    generate_identifier ({} : St) "y" =
      (.ok "i64 %1", (({} : St).new_temp).2.emit (.load "%1" "i64" "%y" (some 8))) ∧
    (get_lvalue_info ({} : St) (.identifier "y")).1 =
      .error "Variable 'y' not found" :=
  ⟨identifier_resolution_order.1 stStaticScope "x"
      { llvm_type := "i64", name := "@C.x" } (by decide) (by decide) (by decide),
   identifier_resolution_order.2.1 ({} : St) "y" (by decide)
      (fun h => by simp at h) (by decide) (by decide),
   identifier_resolution_order.2.2 ({} : St) "y" (by decide)
      (fun h => by simp at h) (by decide)⟩

/-- C4: a `switch` whose default body contains a `break` generates a
basic block holding two consecutive branch terminators — the break's
branch to the end label followed by the unconditional trailing branch —
so the emitted buffer is not a structurally valid control-flow graph. -/
theorem switch_default_break_duplicate_terminator :
    generate_statement 20 ({} : St)
        (.switchS (.literal (.int32 1)) [] (some [.breakS])) =
      (.ok (),
       { labelCtr := 2, tempCtr := 1,
         buf := [.conv "%1" "sext" "i32" "1" "i64",
                 .switchHead "%1" "switch.default1", .switchClose,
                 .label false "switch.default1",
                 .brLabel "switch.end0", .brLabel "switch.end0",
                 .label false "switch.end0"] }) ∧
    wellFormedCFG (generate_statement 20 ({} : St)
        (.switchS (.literal (.int32 1)) [] (some [.breakS]))).2.buf = false := by
  exact ⟨rfl, rfl⟩

/-- Counterexample to C8: returning an `i32 5` operand from a function
declared to return `double` emits `ret i32 5` — the operand is not
converted and the emitted `ret` does not carry the declared return
type. -/
theorem return_int_to_double_unconverted :
    generate_return_statement (generate_expression 20) stRetDouble
        (some (.literal (.int32 5))) =
      (.ok (), { current_return_type := "double", tempCtr := 1,
                 buf := [.ret "i32 5"] }) := by
  exact rfl

/-- C8 as amended: a returned operand is coerced to the declared return
type for integer-width changes and float/double width changes (the `ret`
then carries the declared type), but an integer operand returned from a
floating-return function is emitted unconverted, with the `ret` carrying
the operand's own type. -/
theorem return_statement_coercion (genE : GenE) (st st1 : St) (e : Expr)
    (value : String) (h : genE st e = (.ok value, st1)) :
    (chStartsWith (st1.parse_typed_value value).1 "i" = true →
      chStartsWith st1.current_return_type "i" = true →
      (st1.parse_typed_value value).1 ≠ st1.current_return_type →
      st1.current_return_type ≠ "void" →
      (generate_return_statement genE st (some e)).1 = .ok () ∧
      (generate_return_statement genE st (some e)).2.buf.getLast? =
        some (.ret (st1.current_return_type ++ " " ++ ("%" ++ toString (st1.tempCtr + 1))))) ∧
    ((st1.parse_typed_value value).1 = "double" → st1.current_return_type = "float" →
      (generate_return_statement genE st (some e)).1 = .ok () ∧
      (generate_return_statement genE st (some e)).2.buf.getLast? =
        some (.ret ("float " ++ ("%" ++ toString (st1.tempCtr + 1))))) ∧
    (chStartsWith (st1.parse_typed_value value).1 "i" = true →
      (st1.current_return_type = "float" ∨ st1.current_return_type = "double") →
      (generate_return_statement genE st (some e)).1 = .ok () ∧
      (generate_return_statement genE st (some e)).2.buf = st1.buf ++ [.ret value]) := by
  refine ⟨?_, ?_, ?_⟩
  · intro hvi hri hne hrv
    have hvd : (st1.parse_typed_value value).1 ≠ "double" := by
      intro hx; rw [hx] at hvi; simp [chStartsWith] at hvi
    have hvf : (st1.parse_typed_value value).1 ≠ "float" := by
      intro hx; rw [hx] at hvi; simp [chStartsWith] at hvi
    constructor <;>
      simp [generate_return_statement, h, bindR, hrv, hne, hvd, hvf, hvi, hri,
        St.new_temp, St.emit]
  · intro hvd hrf
    have hne : (st1.parse_typed_value value).1 ≠ st1.current_return_type := by
      rw [hvd, hrf]; decide
    have hrv : st1.current_return_type ≠ "void" := by rw [hrf]; decide
    constructor <;>
      simp [generate_return_statement, h, bindR, hrv, hne, hvd, hrf,
        St.new_temp, St.emit]
  · intro hvi hrf
    have hvd : (st1.parse_typed_value value).1 ≠ "double" := by
      intro hx; rw [hx] at hvi; simp [chStartsWith] at hvi
    have hvf : (st1.parse_typed_value value).1 ≠ "float" := by
      intro hx; rw [hx] at hvi; simp [chStartsWith] at hvi
    have hne : (st1.parse_typed_value value).1 ≠ st1.current_return_type := by
      rcases hrf with hx | hx <;> rw [hx] <;> assumption
    have hrv : st1.current_return_type ≠ "void" := by
      rcases hrf with hx | hx <;> rw [hx] <;> decide
    have hrni : chStartsWith st1.current_return_type "i" = false := by
      rcases hrf with hx | hx <;> rw [hx] <;> decide
    constructor <;>
      simp [generate_return_statement, h, bindR, hrv, hne, hvd, hvf, hvi, hrni,
        St.new_temp, St.emit]

/-- Witness for C8 as amended: an `i32` operand returned from an
`i64`-returning function is sign-extended and the `ret` carries `i64`;
an `i32` operand returned from a `double`-returning function is emitted
unconverted. -/
theorem return_statement_coercion_witness :
    ((generate_return_statement (generate_expression 20)
        { current_return_type := "i64" } (some (.literal (.int32 5)))).2.buf.getLast? =
      some (.ret "i64 %1")) ∧
    ((generate_return_statement (generate_expression 20) stRetDouble
        (some (.literal (.int32 5)))).2.buf = ([] : List Line) ++ [.ret "i32 5"]) := by
  constructor
  · exact ((return_statement_coercion (generate_expression 20)
      { current_return_type := "i64" }
      { current_return_type := "i64" } (.literal (.int32 5)) "i32 5" rfl).1
      (by decide) (by decide) (by decide) (by decide)).2
  · exact ((return_statement_coercion (generate_expression 20) stRetDouble stRetDouble
      (.literal (.int32 5)) "i32 5" rfl).2.2 (by decide) (Or.inr (by decide))).2

/-- C2: for integer operands, division and modulo generation always
succeeds (a zero divisor is never a generation-time error) and emits the
runtime guard right before the divide opcode: an equality compare of the
promoted divisor against zero, a conditional branch to an error block
holding the printf call, the `exit(1)` call and `unreachable`, and the
continue block holding the `sdiv`/`srem`. -/
theorem division_emits_runtime_guard (st : St) (lt lv rt rv temp : String)
    (hl : chStartsWith lt "i" = true) (hr : chStartsWith rt "i" = true) :
    ∃ (stp : St) (T L R z e c m : String),
      promote_integer_operands st lt lv rt rv = ((T, L, R), stp) ∧
      (generate_div st lt lv rt rv temp).1 = .ok (T ++ " " ++ temp) ∧
      (generate_div st lt lv rt rv temp).2.buf = stp.buf ++
        [.icmp z "eq" T R "0", .condbr z e c, .label false e, .callPrintf m,
         .callExit, .unreachable, .label false c, .binop temp "sdiv" T L R] ∧
      (generate_mod st lt lv rt rv temp).1 = .ok (T ++ " " ++ temp) ∧
      (generate_mod st lt lv rt rv temp).2.buf = stp.buf ++
        [.icmp z "eq" T R "0", .condbr z e c, .label false e, .callPrintf m,
         .callExit, .unreachable, .label false c, .binop temp "srem" T L R] := by
  rcases hp : promote_integer_operands st lt lv rt rv with ⟨⟨T, L, R⟩, stp⟩
  refine ⟨stp, T, L, R, "%" ++ toString (stp.tempCtr + 1),
    "div.error" ++ toString stp.labelCtr, "div.cont" ++ toString (stp.labelCtr + 1),
    "@.str" ++ toString ((stp.strPool.indexOf?
      "Error: Division by zero\n").getD stp.strPool.length), rfl, ?_, ?_, ?_, ?_⟩ <;>
  · rcases hidx : stp.strPool.indexOf? "Error: Division by zero\n" with _ | i <;>
      simp [generate_div, generate_mod, hl, hr, hp, generate_division_by_zero_check,
        St.new_label, St.new_temp, St.emit, St.get_or_create_string_constant,
        bindR, hidx]

/-- Witness for C2: dividing by the literal zero divisor at `i32` type
still generates successfully, with the full guard shape. -/
theorem division_emits_runtime_guard_witness :
    chStartsWith "i32" "i" = true ∧
    (∃ (stp : St) (T L R z e c m : String),
      promote_integer_operands ({} : St) "i32" "%a" "i32" "0" = ((T, L, R), stp) ∧
      (generate_div ({} : St) "i32" "%a" "i32" "0" "%t").1 = .ok (T ++ " " ++ "%t") ∧
      (generate_div ({} : St) "i32" "%a" "i32" "0" "%t").2.buf = stp.buf ++
        [.icmp z "eq" T R "0", .condbr z e c, .label false e, .callPrintf m,
         .callExit, .unreachable, .label false c, .binop "%t" "sdiv" T L R] ∧
      (generate_mod ({} : St) "i32" "%a" "i32" "0" "%t").1 = .ok (T ++ " " ++ "%t") ∧
      (generate_mod ({} : St) "i32" "%a" "i32" "0" "%t").2.buf = stp.buf ++
        [.icmp z "eq" T R "0", .condbr z e c, .label false e, .callPrintf m,
         .callExit, .unreachable, .label false c, .binop "%t" "srem" T L R]) :=
  ⟨by decide,
   division_emits_runtime_guard ({} : St) "i32" "%a" "i32" "0" "%t"
     (by decide) (by decide)⟩

/-- C3: over the integer operand types the generator produces, the common
type of a binary operation is `i32` whenever either operand is the byte
type `i8`, and otherwise the wider of the two; a narrower operand on the
non-byte path gets a sign-extension emitted; `generate_add` returns an
operand of the common type, and `generate_lt` compares at the common type
after the same promotion. -/
theorem integer_promotion_common_type (lt rt : String) (hl : lt ∈ intLikeTys)
    (hr : rt ∈ intLikeTys) (st : St) (lv rv temp : String) :
    ((promote_integer_operands st lt lv rt rv).1.1 =
      if lt = "i8" ∨ rt = "i8" then "i32"
      else if intBits rt ≤ intBits lt then lt else rt) ∧
    (lt ≠ "i8" → rt ≠ "i8" → intBits lt < intBits rt →
      (promote_integer_operands st lt lv rt rv).1.2.1 = "%" ++ toString (st.tempCtr + 1) ∧
      (promote_integer_operands st lt lv rt rv).2.buf =
        st.buf ++ [.conv ("%" ++ toString (st.tempCtr + 1)) "sext" lt lv rt]) ∧
    (lt ≠ "i8" → rt ≠ "i8" → intBits rt < intBits lt →
      (promote_integer_operands st lt lv rt rv).1.2.2 = "%" ++ toString (st.tempCtr + 1) ∧
      (promote_integer_operands st lt lv rt rv).2.buf =
        st.buf ++ [.conv ("%" ++ toString (st.tempCtr + 1)) "sext" rt rv lt]) ∧
    ((generate_add st lt lv rt rv temp).1 =
      .ok ((promote_integer_operands st lt lv rt rv).1.1 ++ " " ++ temp)) ∧
    ((generate_lt st lt lv rt rv temp).1 = .ok ("i1 " ++ temp)) ∧
    ((generate_lt st lt lv rt rv temp).2.buf =
      (promote_integer_operands st lt lv rt rv).2.buf ++
        [.icmp temp "slt" (promote_integer_operands st lt lv rt rv).1.1
          (promote_integer_operands st lt lv rt rv).1.2.1
          (promote_integer_operands st lt lv rt rv).1.2.2]) := by
  fin_cases hl <;> fin_cases hr <;>
    refine ⟨rfl, ?_, ?_, rfl, rfl, rfl⟩ <;>
    · intro h1 h2 h3
      first
        | exact absurd h3 (by decide)
        | exact absurd rfl h1
        | exact absurd rfl h2
        | exact ⟨rfl, rfl⟩

/-- Witness for C3: `i32 + i64` promotes to `i64`, sign-extends the
left operand, and the returned operand is `i64`-typed. -/
theorem integer_promotion_common_type_witness :
    (promote_integer_operands ({} : St) "i32" "%a" "i64" "%b").1.1 = "i64" ∧
    (generate_add ({} : St) "i32" "%a" "i64" "%b" "%t").1 =
      .ok ((promote_integer_operands ({} : St) "i32" "%a" "i64" "%b").1.1 ++ " " ++ "%t") :=
  ⟨by decide,
   (integer_promotion_common_type "i32" "i64" (by decide) (by decide)
     ({} : St) "%a" "%b" "%t").2.2.2.1⟩

/-- Counterexample to C6: `avg(int, int...)` is a registered variadic
overload with one fixed parameter, but a call `avg(7, 8)` resolves its
fixed count through the packer's hard-coded name table (which does not
know `avg`, so 0) — every argument is packed and the emitted call carries
a single argument instead of the fixed argument plus the array pointer. -/
theorem varargs_call_ignores_overload_fixed_count :
    is_varargs_method stAvg "Main" "avg" = true ∧
    mAvg.params.length - 1 = 1 ∧
    fixed_count_table "avg" = 0 ∧
    (generate_user_call (generate_expression 20) stAvg "avg"
        [.literal (.int32 7), .literal (.int32 8)]).1 = .ok "i32 %6" ∧
    (generate_user_call (generate_expression 20) stAvg "avg"
        [.literal (.int32 7), .literal (.int32 8)]).2.buf.getLast? =
      some (.callFn (some "%6") "i32" "Main.__avg_i_ai" ["i8* %1"]) := by
  exact ⟨rfl, rfl, rfl, rfl, rfl⟩

/-- Auxiliary: the varargs store loop only ever appends to the buffer. -/
theorem packLoop_buf_extends (p : String) (vs : List String) :
    ∀ (st : St) (i : Nat),
      ∃ extra, (pack_varargs_args.packLoop st p vs i).buf = st.buf ++ extra := by
  induction vs with
  | nil => intro st i; exact ⟨[], by simp [pack_varargs_args.packLoop]⟩
  | cons a rest ih =>
    intro st i
    have step : ∀ (st2 : St) (e : List Line), st2.buf = st.buf ++ e →
        ∃ e2, (pack_varargs_args.packLoop st2 p rest (i + 1)).buf = st.buf ++ e2 := by
      intro st2 e he
      obtain ⟨e2, h2⟩ := ih st2 (i + 1)
      exact ⟨e ++ e2, by rw [h2, he, List.append_assoc]⟩
    simp only [pack_varargs_args.packLoop]
    by_cases h64 : (st.parse_typed_value a).1 = "i64" <;>
      by_cases h32 : (st.parse_typed_value a).1 = "i32" <;>
      · simp only [h64, h32, if_true, if_false, ite_true, ite_false]
        exact step _ _ (by simp [St.new_temp, St.emit]; rfl)

/-- C6 as amended: when a call resolves to a variadic overload, the split
point between fixed and packed arguments is the packer's hard-coded
per-name table (`sum` 0, `printAll` 1, `multiplyAndAdd` 1, any other name
0), not the overload's declared parameter list; the trailing arguments
are packed into a fresh `calloc` array of 4-byte slots whose pointer
becomes the single final argument.  For `printAll` the table agrees with
the registered overload, and `printAll("x", 1, 2, 3)` passes exactly two
arguments to the mangled target. -/
theorem pack_varargs_uses_table (st : St) (class_name method_name : String)
    (arg_results : List String)
    (h : fixed_count_table method_name < arg_results.length) :
    ((pack_varargs_args st class_name method_name arg_results).1 =
      .ok (arg_results.take (fixed_count_table method_name) ++
        ["i8* " ++ ("%" ++ toString (st.tempCtr + 1))]) ∧
     ∃ rest, (pack_varargs_args st class_name method_name arg_results).2.buf =
       st.buf ++ .calloc ("%" ++ toString (st.tempCtr + 1))
         (toString ((arg_results.length - fixed_count_table method_name) * 4)) :: rest) ∧
    (generate_user_call (generate_expression 20) stPrintAll "printAll"
        [.literal (.strL "x"), .literal (.int32 1), .literal (.int32 2),
         .literal (.int32 3)]).2.buf.getLast? =
      some (.callFn none "void" "Main.__printAll_s_ai" ["i8* %1", "i8* %2"]) := by
  refine ⟨⟨?_, ?_⟩, rfl⟩
  · simp [pack_varargs_args, Nat.not_le_of_lt h, St.new_temp, St.emit]
  · obtain ⟨extra, hq⟩ := packLoop_buf_extends ("%" ++ toString (st.tempCtr + 1))
      (arg_results.drop (fixed_count_table method_name))
      (((st.new_temp).2).emit (.calloc ("%" ++ toString (st.tempCtr + 1))
        (toString ((arg_results.length - fixed_count_table method_name) * 4)))) 0
    refine ⟨extra, ?_⟩
    simp only [pack_varargs_args, Nat.not_le_of_lt h, if_false, ite_false]
    simp only [St.new_temp, St.emit] at hq ⊢
    simp [hq, List.length_drop]

/-- Witness for C6 as amended: packing `printAll`'s three trailing
integers keeps the one fixed argument and appends the array pointer. -/
theorem pack_varargs_uses_table_witness :
    (pack_varargs_args ({} : St) "Main" "printAll"
        ["i8* %9", "i32 1", "i32 2", "i32 3"]).1 =
      .ok (["i8* %9", "i32 1", "i32 2", "i32 3"].take (fixed_count_table "printAll") ++
        ["i8* " ++ ("%" ++ toString (({} : St).tempCtr + 1))]) :=
  (pack_varargs_uses_table ({} : St) "Main" "printAll"
    ["i8* %9", "i32 1", "i32 2", "i32 3"] (by decide)).1.1

/-- Auxiliary: `parse_typed_value` reads none of the generator state. -/
theorem parse_typed_value_state_free (st : St) (s : String) :
    st.parse_typed_value s = ({} : St).parse_typed_value s := rfl

/-- Auxiliary: `storeCount` is additive over buffer concatenation. -/
theorem storeCount_append (a b : List Line) :
    storeCount (a ++ b) = storeCount a + storeCount b := by
  simp [storeCount, List.filter_append]

/-- Auxiliary: `gepCount` is additive over buffer concatenation. -/
theorem gepCount_append (a b : List Line) :
    gepCount (a ++ b) = gepCount a + gepCount b := by
  simp [gepCount, List.filter_append]

/-- Auxiliary: `truncCount` is additive over buffer concatenation. -/
theorem truncCount_append (a b : List Line) :
    truncCount (a ++ b) = truncCount a + truncCount b := by
  simp [truncCount, List.filter_append]

/-- Auxiliary: the varargs store loop emits one address computation per
slot, one store per `i32`/`i64`-typed argument, and one truncation per
`i64`-typed argument. -/
theorem packLoop_counts (p : String) (vs : List String) :
    ∀ (st : St) (i : Nat),
      storeCount (pack_varargs_args.packLoop st p vs i).buf =
        storeCount st.buf + (vs.filter isPackedIntArg).length ∧
      gepCount (pack_varargs_args.packLoop st p vs i).buf =
        gepCount st.buf + vs.length ∧
      truncCount (pack_varargs_args.packLoop st p vs i).buf =
        truncCount st.buf +
          (vs.filter (fun a => (({} : St).parse_typed_value a).1 = "i64")).length := by
  induction vs with
  | nil => intro st i; simp [pack_varargs_args.packLoop]
  | cons a rest ih =>
    intro st i
    simp only [pack_varargs_args.packLoop, parse_typed_value_state_free]
    by_cases h64 : (({} : St).parse_typed_value a).1 = "i64" <;>
      by_cases h32 : (({} : St).parse_typed_value a).1 = "i32" <;>
      · simp only [h64, h32, if_true, if_false, ite_true, ite_false]
        refine ⟨?_, ?_, ?_⟩
        · rw [(ih _ (i + 1)).1]
          simp [St.new_temp, St.emit, storeCount_append, storeCount,
            List.filter_cons, isPackedIntArg, parse_typed_value_state_free, h64, h32]
          try omega
        · rw [(ih _ (i + 1)).2.1]
          simp [St.new_temp, St.emit, gepCount_append, gepCount, List.filter_cons]
          try omega
        · rw [(ih _ (i + 1)).2.2]
          simp [St.new_temp, St.emit, truncCount_append, truncCount,
            List.filter_cons, h64, h32]
          try omega

/-- C9: packing varargs stores only the `i32`- and `i64`-typed trailing
arguments (one store each, with one truncation per `i64`); an argument of
any other type gets no store, yet every trailing argument still occupies
a 4-byte slot (one address computation each), and the packed result is
the fixed arguments plus the single array pointer. -/
theorem pack_varargs_store_only_ints (st : St) (class_name method_name : String)
    (arg_results : List String)
    (h : fixed_count_table method_name < arg_results.length) :
    (∃ packed, (pack_varargs_args st class_name method_name arg_results).1 =
        .ok packed ∧ packed.length = fixed_count_table method_name + 1) ∧
    storeCount (pack_varargs_args st class_name method_name arg_results).2.buf =
      storeCount st.buf +
        ((arg_results.drop (fixed_count_table method_name)).filter isPackedIntArg).length ∧
    gepCount (pack_varargs_args st class_name method_name arg_results).2.buf =
      gepCount st.buf + (arg_results.drop (fixed_count_table method_name)).length ∧
    truncCount (pack_varargs_args st class_name method_name arg_results).2.buf =
      truncCount st.buf +
        ((arg_results.drop (fixed_count_table method_name)).filter
          (fun a => (({} : St).parse_typed_value a).1 = "i64")).length := by
  refine ⟨⟨arg_results.take (fixed_count_table method_name) ++
      ["i8* " ++ ("%" ++ toString (st.tempCtr + 1))], ?_, ?_⟩, ?_, ?_, ?_⟩
  · simp [pack_varargs_args, Nat.not_le_of_lt h, St.new_temp, St.emit]
  · simp [List.length_take]
    omega
  · simp only [pack_varargs_args, Nat.not_le_of_lt h, if_false, ite_false]
    rw [(packLoop_counts _ _ _ _).1]
    simp [St.new_temp, St.emit, storeCount_append, storeCount]
  · simp only [pack_varargs_args, Nat.not_le_of_lt h, if_false, ite_false]
    rw [(packLoop_counts _ _ _ _).2.1]
    simp [St.new_temp, St.emit, gepCount_append, gepCount]
  · simp only [pack_varargs_args, Nat.not_le_of_lt h, if_false, ite_false]
    rw [(packLoop_counts _ _ _ _).2.2]
    simp [St.new_temp, St.emit, truncCount_append, truncCount]

/-- Witness for C9: packing `sum(1.5, 4, 9L, p)` emits four slot address
computations but only two stores (the `i32` and the truncated `i64`); the
`double` and pointer slots keep their calloc zero. -/
theorem pack_varargs_store_only_ints_witness :
    storeCount (pack_varargs_args ({} : St) "Main" "sum"
      ["double 1.5", "i32 4", "i64 9", "i8* %p"]).2.buf =
      storeCount ({} : St).buf +
        ((["double 1.5", "i32 4", "i64 9", "i8* %p"].drop
          (fixed_count_table "sum")).filter isPackedIntArg).length ∧
    gepCount (pack_varargs_args ({} : St) "Main" "sum"
      ["double 1.5", "i32 4", "i64 9", "i8* %p"]).2.buf =
      gepCount ({} : St).buf +
        (["double 1.5", "i32 4", "i64 9", "i8* %p"].drop
          (fixed_count_table "sum")).length :=
  ⟨(pack_varargs_store_only_ints ({} : St) "Main" "sum"
      ["double 1.5", "i32 4", "i64 9", "i8* %p"] (by decide)).2.1,
   (pack_varargs_store_only_ints ({} : St) "Main" "sum"
      ["double 1.5", "i32 4", "i64 9", "i8* %p"] (by decide)).2.2.1⟩

/-- Auxiliary: appending one line moves the buffer's last entry. -/
theorem getLast?_append_one {α : Type} (l : List α) (a : α) :
    (l ++ [a]).getLast? = some a := by
  rw [List.getLast?_concat]

/-- Counterexample to C5: an if/else whose two branches are `switch`
statements has its merge block marked `unreachable`, although neither
branch's generated code ends in a terminator instruction — each ends in
its switch's end-label line, which the textual detection mistakes for a
terminator because the label text starts with the token `switch`. -/
theorem if_merge_unreachable_without_terminator :
    (generate_statement 20 ({} : St) (.ifS (.literal (.int32 1))
        (.switchS (.literal (.int32 1)) [] none)
        (some (.switchS (.literal (.int32 2)) [] none)))).1 = .ok () ∧
    (generate_statement 20 ({} : St) (.ifS (.literal (.int32 1))
        (.switchS (.literal (.int32 1)) [] none)
        (some (.switchS (.literal (.int32 2)) [] none)))).2.buf.getLast? =
      some Line.unreachable ∧
    (let stE := (if_entry (generate_expression 19) ({} : St) (.literal (.int32 1)) true).2
     let thenStage := if_branch_stage (generate_statement 19) stE
        (.switchS (.literal (.int32 1)) [] none) "ifmerge2"
     thenStage.1 = .ok true ∧
     (thenStage.2.buf.drop stE.buf.length).getLast? =
       some (.label false "switch.end3") ∧
     isTermL (.label false "switch.end3") = false) := by
  exact ⟨rfl, rfl, rfl, rfl, rfl⟩

/-- C5 as amended: the merge block of an if statement is marked
`unreachable` exactly when an else branch exists and both branch stages
detected termination by the textual last-line check (which accepts any
line whose trimmed text starts with ret/br/switch/unreachable, labels
included); an if without an else never marks its merge block, which then
ends the statement's output as a plain label. -/
theorem if_merge_unreachable_iff (genE : GenE) (genS : GenS) (st : St) (cond : Expr)
    (tb : Stmt) (eb : Option Stmt) (u : Unit) (st' : St) (elseL mergeL : String)
    (heL : elseL = ((st.new_label "then").2.new_label "else").1)
    (hmL : mergeL = (((st.new_label "then").2.new_label "else").2.new_label "ifmerge").1)
    (h : generate_if_statement genE genS st cond tb eb = (.ok u, st')) :
    ((st'.buf.getLast? = some Line.unreachable) ↔
      ∃ ebv stE st1 st2,
        eb = some ebv ∧
        if_entry genE st cond true = (.ok (), stE) ∧
        if_branch_stage genS stE tb mergeL = (.ok true, st1) ∧
        if_branch_stage genS (st1.emit (.label false elseL)) ebv mergeL =
          (.ok true, st2)) ∧
    (eb = none → st'.buf.getLast? = some (.label false mergeL)) := by
  subst heL
  subst hmL
  simp only [generate_if_statement] at h
  rcases hE : if_entry genE st cond eb.isSome with ⟨rE, stE⟩
  rw [hE] at h
  cases rE with
  | error e => simp [bindR] at h
  | ok v =>
    simp only [bindR] at h
    rcases hT : if_branch_stage genS stE tb
        ((((st.new_label "then").2.new_label "else").2.new_label "ifmerge").1) with ⟨rT, st1⟩
    rw [hT] at h
    cases rT with
    | error e => simp [bindR] at h
    | ok tT =>
      simp only [bindR] at h
      cases eb with
      | none =>
        simp only [Option.isSome_none] at h hE
        have h2 : st1.emit
            (.label false ((((st.new_label "then").2.new_label "else").2.new_label
              "ifmerge").1)) = st' := congrArg Prod.snd h
        subst h2
        constructor
        · constructor
          · intro hx
            simp [St.emit, getLast?_append_one] at hx
          · rintro ⟨ebv2, stE2, st12, st22, he2, -, -, -⟩
            exact Option.noConfusion he2
        · intro _
          simp [St.emit, getLast?_append_one]
      | some ebv =>
        simp only [Option.isSome_some] at h hE
        rcases hEl : if_branch_stage genS
            (st1.emit (.label false (((st.new_label "then").2.new_label "else").1))) ebv
            ((((st.new_label "then").2.new_label "else").2.new_label "ifmerge").1)
          with ⟨rEl, st2⟩
        rw [hEl] at h
        cases rEl with
        | error e => simp [bindR] at h
        | ok eT =>
          simp only [bindR] at h
          have h2 :
              (if (if true then tT && eT else false) then
                ((st2.emit (.label false ((((st.new_label "then").2.new_label
                  "else").2.new_label "ifmerge").1))).emit .unreachable)
              else
                (st2.emit (.label false ((((st.new_label "then").2.new_label
                  "else").2.new_label "ifmerge").1)))) = st' := congrArg Prod.snd h
          subst h2
          refine ⟨?_, fun hx => Option.noConfusion hx⟩
      
          cases tT with
          | false =>
            cases eT with
            | false =>
              constructor
              · intro hx
                simp [St.emit, getLast?_append_one] at hx
              · rintro ⟨ebv2, stE2, st12, st22, he2, h12, h22, h32⟩
                cases he2
                rw [hE] at h12
                have hs : stE = stE2 := congrArg Prod.snd h12
                subst hs
                rw [hT] at h22
                have : (Except.ok false : cayResult Bool) = .ok true :=
                  congrArg Prod.fst h22
                exact absurd this (by simp)
            | true =>
              constructor
              · intro hx
                simp [St.emit, getLast?_append_one] at hx
              · rintro ⟨ebv2, stE2, st12, st22, he2, h12, h22, h32⟩
                cases he2
                rw [hE] at h12
                have hs : stE = stE2 := congrArg Prod.snd h12
                subst hs
                rw [hT] at h22
                have : (Except.ok false : cayResult Bool) = .ok true :=
                  congrArg Prod.fst h22
                exact absurd this (by simp)
          | true =>
            cases eT with
            | false =>
              constructor
              · intro hx
                simp [St.emit, getLast?_append_one] at hx
              · rintro ⟨ebv2, stE2, st12, st22, he2, h12, h22, h32⟩
                cases he2
                rw [hE] at h12
                have hs : stE = stE2 := congrArg Prod.snd h12
                subst hs
                rw [hT] at h22
                have hs1 : st1 = st12 := congrArg Prod.snd h22
                subst hs1
                rw [hEl] at h32
                have : (Except.ok false : cayResult Bool) = .ok true :=
                  congrArg Prod.fst h32
                exact absurd this (by simp)
            | true =>
              constructor
              · intro _
                exact ⟨ebv, stE, st1, st2, rfl, hE, hT, hEl⟩
              · intro _
                simp [St.emit, getLast?_append_one]

/-- Witness for C5 as amended: an if/else whose branches are bare return
statements terminates both stages and marks the merge block
unreachable. -/
theorem if_merge_unreachable_iff_witness :
    ((generate_if_statement (generate_expression 19) (generate_statement 19) ({} : St)
        (.literal (.int32 1)) (.ret none) (some (.ret none))).2.buf.getLast? =
          some Line.unreachable ↔
      ∃ ebv stE st1 st2,
        (some (Stmt.ret none) : Option Stmt) = some ebv ∧
        if_entry (generate_expression 19) ({} : St) (.literal (.int32 1)) true =
          (.ok (), stE) ∧
        if_branch_stage (generate_statement 19) stE (.ret none) "ifmerge2" =
          (.ok true, st1) ∧
        if_branch_stage (generate_statement 19) (st1.emit (.label false "else1"))
          ebv "ifmerge2" = (.ok true, st2)) ∧
    ((some (Stmt.ret none) : Option Stmt) = none →
      (generate_if_statement (generate_expression 19) (generate_statement 19) ({} : St)
        (.literal (.int32 1)) (.ret none) (some (.ret none))).2.buf.getLast? =
          some (.label false "ifmerge2")) :=
  if_merge_unreachable_iff (generate_expression 19) (generate_statement 19) ({} : St)
    (.literal (.int32 1)) (.ret none) (some (.ret none)) ()
    (generate_if_statement (generate_expression 19) (generate_statement 19) ({} : St)
      (.literal (.int32 1)) (.ret none) (some (.ret none))).2
    "else1" "ifmerge2" rfl rfl rfl

/-- Counterexample to C1: multi-dimensional creation writes no length
header for its outer pointer array, so reading `.length` immediately
after `new int[2][3]` loads from 8 bytes below the allocation — memory
the creation never wrote.  Running the emitted code from an initial
memory holding 7 everywhere yields 7, not the outermost size 2. -/
theorem md_array_length_not_outer_size :
    (generate_expression 20 ({} : St)
        (.memberAccess (.arrayCreation .int32
          [.literal (.int32 2), .literal (.int32 3)]) "length")).1 = .ok "i32 %20" ∧
    (runProg (generate_expression 20 ({} : St)
        (.memberAccess (.arrayCreation .int32
          [.literal (.int32 2), .literal (.int32 3)]) "length")).2.buf
      200 (initRun (fun _ => 7)) 0).env "%20" = some 7 ∧
    (7 : Int) ≠ 2 := by
  refine ⟨rfl, ?_, by decide⟩
  decide

/-- C1 as amended: for ONE-dimensional creation the claim is right —
creation stores the `i32` size into the 4-byte count field of the 8-byte
header placed before element 0 and returns the pointer past the header,
and `.length` reads back through the pointer's minus-8 offset — so for
every decimal-literal size `n`, running the code emitted for reading
`.length` immediately after `new int[n]` yields exactly `n`, from any
initial memory. -/
theorem oned_array_length_yields_size (n : Int) (mem0 : Int → Int)
    (h : decimalLit n) :
    (generate_expression 20 ({} : St)
        (.memberAccess (.arrayCreation .int32 [.literal (.int32 n)]) "length")).1 =
      .ok "i32 %11" ∧
    (runProg (generate_expression 20 ({} : St)
        (.memberAccess (.arrayCreation .int32 [.literal (.int32 n)]) "length")).2.buf
      50 (initRun mem0) 0).env "%11" = some n := by
  obtain ⟨hsplit, hparse, hpct⟩ := h
  have hp : ∀ st : St, st.parse_typed_value ("i32 " ++ toString n) = ("i32", toString n) :=
    fun _ => hsplit
  have hp2 : ∀ st : St, st.parse_typed_value "i32* %7" = ("i32*", "%7") := fun _ => rfl
  have hcs : chStartsWith "i32" "i" = true := rfl
  have hce : chEndsWith "i32*" "*" = true := rfl
  have t1 : toString (1:Nat) = "1" := rfl
  have t2 : toString (2:Nat) = "2" := rfl
  have t3 : toString (3:Nat) = "3" := rfl
  have t4 : toString (4:Nat) = "4" := rfl
  have t5 : toString (5:Nat) = "5" := rfl
  have t6 : toString (6:Nat) = "6" := rfl
  have t7 : toString (7:Nat) = "7" := rfl
  have t8 : toString (8:Nat) = "8" := rfl
  have t9 : toString (9:Nat) = "9" := rfl
  have t10 : toString (10:Nat) = "10" := rfl
  have t11 : toString (11:Nat) = "11" := rfl
  constructor
  · simp [generate_expression, generate_member_access, generate_array_creation,
      generate_1d_array_creation, generate_literal, bindR, hp, hp2, hcs, hce,
      t1, t2, t3, t4, t5, t6, t7, t8, t9, t10, t11,
      St.new_temp, St.emit, St.type_to_llvm, lookupA]
  · have hbuf : (generate_expression 20 ({} : St)
        (.memberAccess (.arrayCreation .int32 [.literal (.int32 n)]) "length")).2.buf =
        [.conv "%1" "sext" "i32" (toString n) "i64",
         .binop "%2" "mul" "i64" "%1" "4",
         .binop "%3" "add" "i64" "%2" "8",
         .calloc "%4" "%3",
         .bitcast "%5" "i8*" "%4" "i32*",
         .store "i32" (toString n) "%5" (some 4),
         .gep "%6" "i8" "%4" "8",
         .bitcast "%7" "i8*" "%6" "i32*",
         .bitcast "%8" "i32*" "%7" "i8*",
         .gep "%9" "i8" "%8" "-8",
         .bitcast "%10" "i8*" "%9" "i32*",
         .load "%11" "i32" "%10" (some 4)] := by
      simp [generate_expression, generate_member_access, generate_array_creation,
        generate_1d_array_creation, generate_literal, bindR, hp, hp2, hcs, hce,
        t1, t2, t3, t4, t5, t6, t7, t8, t9, t10, t11,
        St.new_temp, St.emit, St.type_to_llvm, lookupA]
    rw [hbuf]
    have hEn : ∀ σ : RunSt, evalOp σ (toString n) = n := by
      intro σ; simp [evalOp, hpct, hparse]
    have e1 : ∀ σ : RunSt, evalOp σ "%1" = (σ.env "%1").getD 0 := fun _ => rfl
    have e2 : ∀ σ : RunSt, evalOp σ "%2" = (σ.env "%2").getD 0 := fun _ => rfl
    have e3 : ∀ σ : RunSt, evalOp σ "%3" = (σ.env "%3").getD 0 := fun _ => rfl
    have e4 : ∀ σ : RunSt, evalOp σ "%4" = (σ.env "%4").getD 0 := fun _ => rfl
    have e5 : ∀ σ : RunSt, evalOp σ "%5" = (σ.env "%5").getD 0 := fun _ => rfl
    have e6 : ∀ σ : RunSt, evalOp σ "%6" = (σ.env "%6").getD 0 := fun _ => rfl
    have e7 : ∀ σ : RunSt, evalOp σ "%7" = (σ.env "%7").getD 0 := fun _ => rfl
    have e8 : ∀ σ : RunSt, evalOp σ "%8" = (σ.env "%8").getD 0 := fun _ => rfl
    have e9 : ∀ σ : RunSt, evalOp σ "%9" = (σ.env "%9").getD 0 := fun _ => rfl
    have e10 : ∀ σ : RunSt, evalOp σ "%10" = (σ.env "%10").getD 0 := fun _ => rfl
    have c4 : ∀ σ : RunSt, evalOp σ "4" = 4 := fun _ => rfl
    have c8 : ∀ σ : RunSt, evalOp σ "8" = 8 := fun _ => rfl
    have cm8 : ∀ σ : RunSt, evalOp σ "-8" = -8 := fun _ => rfl
    have hsz : chEndsWith "i8" "*" = false := rfl
    have h64 : chToNat? "64" = some 64 := rfl
    simp [runProg, stepPC, execLine, hEn, e1, e2, e3, e4, e5, e6, e7, e8, e9, e10,
      c4, c8, cm8, setReg, setMem, zeroRange, initRun, List.get?, sizeOfLLVMTy,
      truncWidth, intBits, hsz, h64]

/-- Witness for `oned_array_length_yields_size` at the concrete size 5
and an all-7 initial memory. -/
theorem oned_array_length_yields_size_witness :
    decimalLit 5 ∧
    ((generate_expression 20 ({} : St)
        (.memberAccess (.arrayCreation .int32 [.literal (.int32 5)]) "length")).1 =
      .ok "i32 %11" ∧
    (runProg (generate_expression 20 ({} : St)
        (.memberAccess (.arrayCreation .int32 [.literal (.int32 5)]) "length")).2.buf
      50 (initRun (fun _ => 7)) 0).env "%11" = some 5) :=
  ⟨⟨rfl, rfl, rfl⟩,
   oned_array_length_yields_size 5 (fun _ => 7) ⟨rfl, rfl, rfl⟩⟩

end Cavvy
